import Mathlib

/-!
Verification model of the chat session driver in `crates/q_cli/src/cli/chat/mod.rs`
and of the generated `DocMetrics` builder in
`crates/amzn-qdeveloper-client/src/types/_doc_metrics.rs`.

Modelling conventions.
* Rust strings are Lean `String`s, except in `truncate_safe`, where the byte-level
  slicing matters: there a `str` is a `List Char` and byte positions are computed
  with `Char.utf8Size`, so that every `List Char` position is a UTF-8 character
  boundary of the corresponding string.
* Stateful methods of `ChatContext` become pure functions from a `ChatContext`
  value (plus the explicit inputs the Rust code reads from the environment:
  the user-input lines, the mock model responses, the interrupt flag) to an
  updated `ChatContext` together with a `Result` value.
* Calls into the conversation state (`conversation_state.rs`, which only has its
  callers in scope here) are recorded as an ordered trace of `ConvOp` operations;
  the driver claims under verification are all about which operations are invoked
  and in which order.
* Terminal output is recorded as an ordered trace of `OutEvent` values; writes
  never fail in the model (the Rust code propagates broken-terminal IO errors,
  which no claim is about).
* `Tool` values (defined in `tools/`, outside the sources in scope) are modelled
  by the results of the methods the driver calls on them: `validate`,
  `requires_acceptance`, `queue_description`, `invoke`, `display_name`,
  `display_name_action`. `Tool::try_from` is passed in as an explicit function.
-/

/-! ## Tool results (fig_api_client::model) -/

inductive ToolResultStatus
  | success
  | error
deriving DecidableEq, Repr

/-- A tool-result content block.  The Rust `Json(Document)` variant is modelled by
the value of `Document::as_string`, the only projection the driver uses. -/
inductive ToolResultContentBlock
  | text (s : String)
  | json (asString : Option String)
deriving DecidableEq, Repr

structure ToolResult where
  tool_use_id : String
  content : List ToolResultContentBlock
  status : ToolResultStatus
deriving DecidableEq, Repr

deriving instance DecidableEq for Except

/-- A tool as seen from the driver: the outcome of each method the driver calls.
The environment argument of `validate`, `requires_acceptance` and `invoke` is
fixed for the whole session, so the outcomes are plain data.  `invokeResult`
carries the content block a successful `invoke` converts into. -/
structure Tool where
  display_name : String
  display_name_action : String
  validateResult : Except String Unit
  requires_acceptance : Bool
  queue_description : Except String Unit
  invokeResult : Except String ToolResultContentBlock
deriving DecidableEq, Repr

/-- An executable `(tool_use_id, Tool)` tuple, as in the source. -/
def QueuedTool := String × Tool
deriving DecidableEq, Repr

/-- A tool use streamed from the model (`parser::ToolUse`).  The `args` field
holds the JSON serialization of the re-assembled arguments. -/
structure ToolUse where
  id : String
  name : String
  args : String
deriving DecidableEq, Repr

structure AssistantResponseMessage where
  message_id : Option String
  content : String
  tool_uses : Option (List ToolUse)
deriving DecidableEq, Repr

/-! ## UTF-8 safe truncation (`truncate_safe`, mod.rs lines 1478-1494) -/

/-- Byte length of a string represented as a list of characters. -/
def utf8ByteLen : List Char → Nat
  | [] => 0
  | c :: r => c.utf8Size + utf8ByteLen r

/-- Model of the byte slice `&s[..n]` for `n` on a character boundary: take
characters greedily while they fit in the byte budget. -/
def takeBytes : Nat → List Char → List Char
  | _, [] => []
  | n, c :: r => if c.utf8Size ≤ n then c :: takeBytes (n - c.utf8Size) r else []

/-- The `for (byte_idx, _) in s.char_indices()` loop of `truncate_safe`:
`byte_idx` is the byte index of the character at the head of the remaining list
and `byte_count` the last index stored.  The loop test is kept in its source
form `byte_count + (byte_idx - byte_count) > max_bytes`. -/
def truncByteCount (max_bytes : Nat) : List Char → Nat → Nat → Nat
  | [], _byte_idx, byte_count => byte_count
  | c :: r, byte_idx, byte_count =>
    if byte_count + (byte_idx - byte_count) > max_bytes then byte_count
    else truncByteCount max_bytes r (byte_idx + c.utf8Size) byte_idx

/-- Model of `pub fn truncate_safe(s: &str, max_bytes: usize) -> &str`. -/
def truncate_safe (s : List Char) (max_bytes : Nat) : List Char :=
  if utf8ByteLen s ≤ max_bytes then s
  else takeBytes (truncByteCount max_bytes s 0 0) s

/-- The string `p` is a prefix of the string `l` (both as character lists);
every such prefix ends on a UTF-8 character boundary of `l`. -/
def startsList (p l : List Char) : Prop := ∃ t, p ++ t = l

/-! ## Mock response streams (`split_tool_use_event`, `create_stream`) -/

/-- One streamed chunk of a model response (fig_api_client::model::ChatResponseStream,
restricted to the variants the mock builder produces). -/
inductive ChatResponseStream
  | assistantResponseEvent (content : String)
  | toolUseEvent (tool_use_id : String) (name : String) (input : Option String)
      (stop : Option Bool)
deriving DecidableEq, Repr

/-- A mock-script tool-use object.  `args` holds `value.get("args").unwrap().to_string()`,
the serde serialization of the args object. -/
structure MockToolUse where
  tool_use_id : String
  name : String
  args : String
deriving DecidableEq, Repr

/-- Model of `str::split_at` at byte index `i`: `some (front, back)` when `i`
lies on a UTF-8 character boundary of the string (and `i` does not exceed the
byte length), `none` when the Rust call panics because `i` falls inside a
multi-byte character or past the end. -/
def splitAtBytes : Nat → List Char → Option (List Char × List Char)
  | 0, l => some ([], l)
  | _ + 1, [] => none
  | i + 1, c :: r =>
    if c.utf8Size ≤ i + 1 then
      match splitAtBytes (i + 1 - c.utf8Size) r with
      | some (front, back) => some (c :: front, back)
      | none => none
    else none

/-- Model of `split_tool_use_event` (mod.rs lines 1554-1585).  The Rust code
computes `split_point = args_str.len() / 2` in bytes and calls
`args_str.split_at(split_point)`, which panics when that byte index is not a
UTF-8 character boundary (serde does not escape non-ASCII characters, so this
is reachable); the panic is modelled by `none`. -/
def split_tool_use_event (value : MockToolUse) : Option (List ChatResponseStream) :=
  let args_str := value.args
  let split_point := utf8ByteLen args_str.data / 2
  match splitAtBytes split_point args_str.data with
  | none => none
  | some (front, back) =>
    some
      [ ChatResponseStream.toolUseEvent value.tool_use_id value.name none none,
        ChatResponseStream.toolUseEvent value.tool_use_id value.name
          (some (String.mk front)) none,
        ChatResponseStream.toolUseEvent value.tool_use_id value.name
          (some (String.mk back)) none,
        ChatResponseStream.toolUseEvent value.tool_use_id value.name none (some true) ]

/-- One element of a mock-script turn: a string is an assistant-text fragment,
an object is a tool use to be expanded. -/
inductive MockFragment
  | str (s : String)
  | obj (tool_use : MockToolUse)
deriving DecidableEq, Repr

/-- Model of the inner loop of `create_stream` (mod.rs lines 1588-1608) for one
response turn; a panic while expanding a tool-use object aborts the whole
construction. -/
def mockTurnStream : List MockFragment → Option (List ChatResponseStream)
  | [] => some []
  | f :: rest =>
    match (match f with
           | MockFragment.str s => some [ChatResponseStream.assistantResponseEvent s]
           | MockFragment.obj v => split_tool_use_event v),
          mockTurnStream rest with
    | some evs, some more => some (evs ++ more)
    | _, _ => none

/-- Model of `create_stream`: expand each scripted turn into its event stream,
aborting on a panic in any turn. -/
def create_stream : List (List MockFragment) → Option (List (List ChatResponseStream))
  | [] => some []
  | turn :: rest =>
    match mockTurnStream turn, create_stream rest with
    | some evs, some more => some (evs :: more)
    | _, _ => none

/-- Re-assemble the partial `input` fragments of a stream in arrival order, as
the response parser does for one tool use. -/
def inputConcat (evs : List ChatResponseStream) : String :=
  evs.foldl
    (fun acc e =>
      match e with
      | ChatResponseStream.toolUseEvent _ _ (some i) _ => acc ++ i
      | _ => acc)
    ""

/-! ## DocMetrics and its builder (_doc_metrics.rs) -/

/-- Model of `DocMetrics`: eight optional i64 counters and four plain i32
counters (machine integers are modelled as `Option Int` and `Int`; the claims
involve no arithmetic, so no overflow reduction is needed). -/
structure DocMetrics where
  accepted_number_of_add_files : Option Int
  total_number_of_add_files : Option Int
  accepted_number_of_update_files : Option Int
  total_number_of_update_files : Option Int
  accepted_number_of_add_lines : Option Int
  total_number_of_add_lines : Option Int
  accepted_number_of_update_lines : Option Int
  total_number_of_update_lines : Option Int
  characters_added_accepted : Int
  characters_added_total : Int
  characters_updated_accepted : Int
  characters_updated_total : Int
deriving DecidableEq, Repr

/-- Model of `DocMetricsBuilder`: every field optional. -/
structure DocMetricsBuilder where
  accepted_number_of_add_files : Option Int := none
  total_number_of_add_files : Option Int := none
  accepted_number_of_update_files : Option Int := none
  total_number_of_update_files : Option Int := none
  accepted_number_of_add_lines : Option Int := none
  total_number_of_add_lines : Option Int := none
  accepted_number_of_update_lines : Option Int := none
  total_number_of_update_lines : Option Int := none
  characters_added_accepted : Option Int := none
  characters_added_total : Option Int := none
  characters_updated_accepted : Option Int := none
  characters_updated_total : Option Int := none
deriving DecidableEq, Repr

/-- Setter `set_accepted_number_of_add_files`. -/
def DocMetricsBuilder.set_accepted_number_of_add_files (b : DocMetricsBuilder)
    (input : Option Int) : DocMetricsBuilder :=
  { b with accepted_number_of_add_files := input }

/-- Setter `set_total_number_of_add_files`. -/
def DocMetricsBuilder.set_total_number_of_add_files (b : DocMetricsBuilder)
    (input : Option Int) : DocMetricsBuilder :=
  { b with total_number_of_add_files := input }

/-- Setter `set_accepted_number_of_update_files`. -/
def DocMetricsBuilder.set_accepted_number_of_update_files (b : DocMetricsBuilder)
    (input : Option Int) : DocMetricsBuilder :=
  { b with accepted_number_of_update_files := input }

/-- Setter `set_total_number_of_update_files`. -/
def DocMetricsBuilder.set_total_number_of_update_files (b : DocMetricsBuilder)
    (input : Option Int) : DocMetricsBuilder :=
  { b with total_number_of_update_files := input }

/-- Setter `set_accepted_number_of_add_lines`. -/
def DocMetricsBuilder.set_accepted_number_of_add_lines (b : DocMetricsBuilder)
    (input : Option Int) : DocMetricsBuilder :=
  { b with accepted_number_of_add_lines := input }

/-- Setter `set_total_number_of_add_lines`. -/
def DocMetricsBuilder.set_total_number_of_add_lines (b : DocMetricsBuilder)
    (input : Option Int) : DocMetricsBuilder :=
  { b with total_number_of_add_lines := input }

/-- Setter `set_accepted_number_of_update_lines`. -/
def DocMetricsBuilder.set_accepted_number_of_update_lines (b : DocMetricsBuilder)
    (input : Option Int) : DocMetricsBuilder :=
  { b with accepted_number_of_update_lines := input }

/-- Setter `set_total_number_of_update_lines`. -/
def DocMetricsBuilder.set_total_number_of_update_lines (b : DocMetricsBuilder)
    (input : Option Int) : DocMetricsBuilder :=
  { b with total_number_of_update_lines := input }

/-- Setter `set_characters_added_accepted`. -/
def DocMetricsBuilder.set_characters_added_accepted (b : DocMetricsBuilder)
    (input : Option Int) : DocMetricsBuilder :=
  { b with characters_added_accepted := input }

/-- Setter `set_characters_added_total`. -/
def DocMetricsBuilder.set_characters_added_total (b : DocMetricsBuilder)
    (input : Option Int) : DocMetricsBuilder :=
  { b with characters_added_total := input }

/-- Setter `set_characters_updated_accepted`. -/
def DocMetricsBuilder.set_characters_updated_accepted (b : DocMetricsBuilder)
    (input : Option Int) : DocMetricsBuilder :=
  { b with characters_updated_accepted := input }

/-- Setter `set_characters_updated_total`. -/
def DocMetricsBuilder.set_characters_updated_total (b : DocMetricsBuilder)
    (input : Option Int) : DocMetricsBuilder :=
  { b with characters_updated_total := input }

/-! ## Chat driver data model (mod.rs) -/

/-- Enum tracking the origin of a tool use event (mod.rs lines 220-228). -/
inductive ToolUseStatus
  | idle
  | retryInProgress (utterance_id : String)
deriving DecidableEq, Repr

/-- The streaming-client error (fig_api_client::Error), restricted to the
distinction the driver makes: `QuotaBreach` versus everything else. -/
inductive ApiClientError
  | quotaBreach (message : String)
  | other (message : String)
deriving DecidableEq, Repr

/-- Display text of an `ApiClientError`; the precise formatting lives outside
the sources in scope and is modelled by the carried message. -/
def ApiClientError.display : ApiClientError → String
  | ApiClientError.quotaBreach m => m
  | ApiClientError.other m => m

/-- The source variants of a response-stream receive error (parser.rs). -/
inductive RecvErrorKind
  | streamTimeout (durationSecs : Nat)
  | unexpectedToolUseEos (tool_use_id : String) (name : String)
      (message : AssistantResponseMessage)
  | other (message : String)
deriving DecidableEq, Repr

structure RecvError where
  request_id : Option String
  source : RecvErrorKind
deriving DecidableEq, Repr

/-- Events produced by the response parser (parser.rs, used by `handle_response`). -/
inductive ResponseEvent
  | toolUseStart (name : String)
  | assistantText (text : String)
  | toolUse (tu : ToolUse)
  | endStream (message : AssistantResponseMessage)
deriving DecidableEq, Repr

/-- A model response stream (`SendMessageOutput`), abstracted to the sequence of
events and errors the response parser yields from it. -/
abbrev Response := List (Except RecvError ResponseEvent)

/-- The driver error enum `ChatError` (mod.rs lines 230-248). -/
inductive ChatError
  | client (e : ApiClientError)
  | responseStream (e : RecvError)
  | std (message : String)
  | readline (message : String)
  | custom (message : String)
  | interrupted (tool_uses : Option (List QueuedTool))
  | nonInteractiveToolApproval
deriving DecidableEq, Repr

/-- Display text of a `ChatError` following its `thiserror` attributes.  The
inner display of client, stream, io and readline errors lives outside the
sources in scope and is modelled by the carried message. -/
def ChatError.display : ChatError → String
  | ChatError.client e => e.display
  | ChatError.responseStream e =>
      match e.source with
      | RecvErrorKind.streamTimeout _ => "stream timeout"
      | RecvErrorKind.unexpectedToolUseEos _ _ _ => "unexpected tool use end of stream"
      | RecvErrorKind.other m => m
  | ChatError.std m => m
  | ChatError.readline m => m
  | ChatError.custom m => m
  | ChatError.interrupted _ => "interrupted"
  | ChatError.nonInteractiveToolApproval =>
      "Tool approval required but --no-interactive was specified. Use --accept-all to automatically approve tools."

/-- Model of the ANSI and non-ASCII stripper regex (mod.rs line 402) as applied
to the strings arising in the model: none of them contains an ANSI escape
sequence, so the strip reduces to removing the non-ASCII characters. -/
def stripNonAscii (s : String) : String :=
  String.mk (s.data.filter fun ch => ch.toNat ≤ 0x7F)

/-! ## Commands (command.rs surface) -/

inductive ProfileSubcommand
  | list
  | create (name : String)
  | delete (name : String)
  | set (name : String)
  | rename (old_name : String) (new_name : String)
  | help
deriving DecidableEq, Repr

inductive ContextSubcommand
  | show (expand : Bool)
  | add (global : Bool) (force : Bool) (paths : List String)
  | remove (global : Bool) (paths : List String)
  | clear (global : Bool)
  | help
deriving DecidableEq, Repr

inductive Command
  | ask (prompt : String)
  | execute (command : String)
  | clear
  | help
  | issue (prompt : Option String)
  | acceptAll
  | quit
  | profile (subcommand : ProfileSubcommand)
  | context (subcommand : ContextSubcommand)
deriving DecidableEq, Repr

/-- Modelled from the spec: `Command::parse` lives in `command.rs`, which only
has its caller among the sources in scope.  Section 4.F of the specification
defines the surface: input starting with a bang is a shell escape, recognized
slash commands parse to their variants, any other input is a plain `Ask`
prompt, and unrecognized slash commands are parse errors surfaced inline. -/
def splitOnSpaceChars : List Char → List (List Char)
  | [] => [[]]
  | ch :: r =>
    let rest := splitOnSpaceChars r
    if ch = ' ' then [] :: rest
    else
      match rest with
      | [] => [[ch]]
      | w :: ws => (ch :: w) :: ws

/-- Whitespace word splitting of an input line, used by the modelled command
parser (kernel-computable counterpart of splitting on a space). -/
def splitWords (s : String) : List String :=
  (splitOnSpaceChars s.data).map String.mk

/-- Join words back with single spaces (kernel-computable counterpart of
space-intercalation, for the `/issue` free text). -/
def joinWords : List String → String
  | [] => ""
  | [w] => w
  | w :: ws => w ++ " " ++ joinWords ws

def Command.parse (input : String) : Except String Command :=
  match input.data with
  | '!' :: rest => Except.ok (Command.execute (String.mk rest))
  | '/' :: _ =>
    match splitWords input with
    | ["/clear"] => Except.ok Command.clear
    | ["/help"] => Except.ok Command.help
    | ["/acceptall"] => Except.ok Command.acceptAll
    | ["/quit"] => Except.ok Command.quit
    | ["/issue"] => Except.ok (Command.issue none)
    | "/issue" :: rest => Except.ok (Command.issue (some (joinWords rest)))
    | ["/profile", "list"] => Except.ok (Command.profile ProfileSubcommand.list)
    | ["/profile", "help"] => Except.ok (Command.profile ProfileSubcommand.help)
    | ["/profile", "create", name] => Except.ok (Command.profile (ProfileSubcommand.create name))
    | ["/profile", "delete", name] => Except.ok (Command.profile (ProfileSubcommand.delete name))
    | ["/profile", "set", name] => Except.ok (Command.profile (ProfileSubcommand.set name))
    | ["/profile", "rename", a, b] => Except.ok (Command.profile (ProfileSubcommand.rename a b))
    | ["/context", "help"] => Except.ok (Command.context ContextSubcommand.help)
    | ["/context", "show"] => Except.ok (Command.context (ContextSubcommand.show false))
    | ["/context", "show", "--expand"] => Except.ok (Command.context (ContextSubcommand.show true))
    | ["/context", "clear"] => Except.ok (Command.context (ContextSubcommand.clear false))
    | ["/context", "clear", "--global"] => Except.ok (Command.context (ContextSubcommand.clear true))
    | _ => Except.error ("Unknown command")
  | _ => Except.ok (Command.ask input)

/-! ## Conversation state as an operation trace -/

/-- Operations the driver invokes on the conversation state
(`conversation_state.rs`, outside the sources in scope); the driver claims are
about which operations run and in which order, so the state records the trace. -/
inductive ConvOp
  | appendNewUserMessage (text : String)
  | appendUserTranscript (text : String)
  | appendTranscript (text : String)
  | pushAssistantMessage (m : AssistantResponseMessage)
  | addToolResults (results : List ToolResult)
  | abandonToolUse (tools : List QueuedTool) (reason : String)
  | clearHistory
  | fixHistory
  | asSendable
deriving DecidableEq, Repr

structure ConvState where
  conversation_id : String
  message_id : Option String
  has_context_manager : Bool
  ops : List ConvOp
deriving DecidableEq, Repr

def ConvState.append_new_user_message (cs : ConvState) (text : String) : ConvState :=
  { cs with ops := cs.ops ++ [ConvOp.appendNewUserMessage text] }

def ConvState.append_user_transcript (cs : ConvState) (text : String) : ConvState :=
  { cs with ops := cs.ops ++ [ConvOp.appendUserTranscript text] }

def ConvState.append_transcript (cs : ConvState) (text : String) : ConvState :=
  { cs with ops := cs.ops ++ [ConvOp.appendTranscript text] }

/-- Modelled from the spec: `push_assistant_message` records the assistant turn
and sets the message id recorded when the stream ends (spec sections 3 and 4.B);
its body lives in `conversation_state.rs`, outside the sources in scope. -/
def ConvState.push_assistant_message (cs : ConvState) (m : AssistantResponseMessage) : ConvState :=
  { cs with ops := cs.ops ++ [ConvOp.pushAssistantMessage m], message_id := m.message_id }

def ConvState.add_tool_results (cs : ConvState) (results : List ToolResult) : ConvState :=
  { cs with ops := cs.ops ++ [ConvOp.addToolResults results] }

def ConvState.abandon_tool_use (cs : ConvState) (tools : List QueuedTool)
    (reason : String) : ConvState :=
  { cs with ops := cs.ops ++ [ConvOp.abandonToolUse tools reason] }

def ConvState.clear (cs : ConvState) : ConvState :=
  { cs with ops := cs.ops ++ [ConvOp.clearHistory] }

def ConvState.fix_history (cs : ConvState) : ConvState :=
  { cs with ops := cs.ops ++ [ConvOp.fixHistory] }

def ConvState.as_sendable (cs : ConvState) : ConvState :=
  { cs with ops := cs.ops ++ [ConvOp.asSendable] }

/-! ## Telemetry builder (mod.rs lines 1496-1536) -/

structure ToolUseEventBuilder where
  conversation_id : String
  utterance_id : Option String := none
  user_input_id : Option String := none
  tool_use_id : Option String := none
  tool_name : Option String := none
  is_accepted : Bool := false
  is_success : Option Bool := none
  is_valid : Option Bool := none
deriving DecidableEq, Repr

/-- HashMap insert on the association-list model of the telemetry map. -/
def insertReplace (m : List (String × ToolUseEventBuilder)) (k : String)
    (v : ToolUseEventBuilder) : List (String × ToolUseEventBuilder) :=
  if m.any (fun p => p.1 = k) then m.map (fun p => if p.1 = k then (k, v) else p)
  else m ++ [(k, v)]

/-- Entry and_modify setting `is_accepted` (mod.rs lines 1021-1022). -/
def andModifyAccepted (m : List (String × ToolUseEventBuilder)) (k : String) :
    List (String × ToolUseEventBuilder) :=
  m.map fun p => if p.1 = k then (p.1, { p.2 with is_accepted := true }) else p

/-- Entry and_modify setting `is_success` (mod.rs lines 1059 and 1080). -/
def andModifySuccess (m : List (String × ToolUseEventBuilder)) (k : String)
    (v : Bool) : List (String × ToolUseEventBuilder) :=
  m.map fun p => if p.1 = k then (p.1, { p.2 with is_success := some v }) else p

/-! ## Terminal output trace -/

/-- Terminal writes recorded by the model, coarse-grained to the events the
claims distinguish.  A tool runs exactly when an `invokeTool` event is
emitted (mod.rs line 1033). -/
inductive OutEvent
  | printText (s : String)
  | clearLine
  | ctrlcHint
  | approvalHint (singleTool : Bool)
  | toolDescription (t : QueuedTool)
  | validationResults (results : List ToolResult)
  | errorReport (prepend : String) (report : Option String)
  | bashExec (command : String)
  | invokeHeader (action : String)
  | invokeTool (id : String) (tool : Tool)
  | invokeSuccess (id : String)
  | invokeFailure (id : String) (err : String)
  | telemetryFlush (events : List ToolUseEventBuilder)
  | chatAddedMessage (conversation_id : String) (message_id : String)
  | recvToolName (name : String)
  | profileCmd (sub : ProfileSubcommand)
  | contextCmd (sub : ContextSubcommand)
deriving DecidableEq, Repr

/-! ## ChatContext and ChatState -/

/-- The driver state held by `ChatContext` (mod.rs lines 250-272), with the
input source and the mock streaming client made explicit and the terminal
output recorded as a trace. -/
structure ChatContext where
  interactive : Bool
  accept_all : Bool
  tool_use_status : ToolUseStatus
  conversation_state : ConvState
  spinner : Option String
  failed_request_ids : List String
  tool_use_telemetry_events : List (String × ToolUseEventBuilder)
  input_source : List (Option String)
  client : List Response
  output : List OutEvent
deriving DecidableEq, Repr

/-- The chat execution state (mod.rs lines 336-357). -/
inductive ChatState
  | promptUser (tool_uses : Option (List QueuedTool)) (skip_printing_tools : Bool)
  | handleInput (input : String) (tool_uses : Option (List QueuedTool))
  | validateTools (tool_uses : List ToolUse)
  | executeTools (tool_uses : List QueuedTool)
  | handleResponseStream (response : Response)
  | exit
deriving DecidableEq, Repr
/-! ## ChatContext operations -/

/-- Append events to the terminal-output trace (a `queue!` or `execute!` write). -/
def ChatContext.pushOut (c : ChatContext) (evs : List OutEvent) : ChatContext :=
  { c with output := c.output ++ evs }

/-- Replace the conversation state. -/
def ChatContext.setConv (c : ChatContext) (cs : ConvState) : ChatContext :=
  { c with conversation_state := cs }

/-- The flip `if let ToolUseStatus::Idle = self.tool_use_status` to
`RetryInProgress` with the current message id, as duplicated in the source at
mod.rs lines 1089-1095 and 1387-1393. -/
def ChatContext.flipRetryIfIdle (c : ChatContext) : ChatContext :=
  match c.tool_use_status with
  | ToolUseStatus.idle =>
      { c with tool_use_status := ToolUseStatus.retryInProgress (c.conversation_state.message_id.getD ("No utterance id found")) }
  | _ => c

/-- Model of `self.client.send_message(self.conversation_state.as_sendable_conversation_state().await)`:
materializing the sendable snapshot is recorded as a conversation operation,
then the next scripted response is consumed.  An exhausted mock client is a
client error. -/
def ChatContext.sendMessage (c : ChatContext) : ChatContext × Except ApiClientError Response :=
  let c := c.setConv c.conversation_state.as_sendable
  match c.client with
  | [] => (c, Except.error (ApiClientError.other ("no scripted response left")))
  | r :: rest => ({ c with client := rest }, Except.ok r)

/-- Model of `send_tool_use_telemetry` (mod.rs lines 1460-1471): each drained
event gets its `user_input_id` from the current tool-use status, the dispatch
is recorded as output, and the map is emptied. -/
def ChatContext.send_tool_use_telemetry (c : ChatContext) : ChatContext :=
  let user_input_id :=
    match c.tool_use_status with
    | ToolUseStatus.idle => c.conversation_state.message_id
    | ToolUseStatus.retryInProgress id => some id
  let c := c.pushOut [OutEvent.telemetryFlush (c.tool_use_telemetry_events.map fun p => { p.2 with user_input_id := user_input_id })]
  { c with tool_use_telemetry_events := [] }

/-- The repeated send tail `ChatState::HandleResponseStream(self.client.send_message(...).await?)`:
send the sendable conversation snapshot and enter `HandleResponseStream` with
the response, or fail with the client error. -/
def ChatContext.sendThen (c : ChatContext) : ChatContext × Except ChatError ChatState :=
  match c.sendMessage with
  | (c, Except.ok response) => (c, Except.ok (ChatState.handleResponseStream response))
  | (c, Except.error e) => (c, Except.error (ChatError.client e))

/-- Model of `print_tool_descriptions` (mod.rs lines 1440-1458): print each
queued tool description, failing with a `Custom` error when a description
cannot be produced. -/
def ChatContext.print_tool_descriptions (c : ChatContext) :
    List QueuedTool → ChatContext × Option ChatError
  | [] => (c, none)
  | t :: rest =>
    match t.2.queue_description with
    | Except.error e => (c, some (ChatError.custom ("failed to print tool: " ++ e)))
    | Except.ok _ => ChatContext.print_tool_descriptions (c.pushOut [OutEvent.toolDescription t]) rest

/-- Model of `contextualize_tool` (mod.rs lines 1421-1438): the only effect in
the source is to inject a snapshot context into the `GhIssue` variant; the
injected context is not part of the modelled tool interface, so the tool value
is unchanged. -/
def contextualize_tool (tool : Tool) : Tool := tool

/-- The per-tool-use loop of `validate_tools` (mod.rs lines 1321-1357),
returning the queued tools, the error tool-results and the telemetry entries,
each in iteration order. -/
def validateFold (tryFrom : ToolUse → Except ToolResult Tool) (cid : String)
    (mid : Option String) :
    List ToolUse → List QueuedTool × List ToolResult × List (String × ToolUseEventBuilder)
  | [] => ([], [], [])
  | tu :: rest =>
    let r := validateFold tryFrom cid mid rest
    let tel0 : ToolUseEventBuilder :=
      { conversation_id := cid, tool_use_id := some tu.id, tool_name := some tu.name, utterance_id := mid }
    match tryFrom tu with
    | Except.ok tool =>
      let tool := contextualize_tool tool
      match tool.validateResult with
      | Except.ok _ =>
          ((tu.id, tool) :: r.1, r.2.1, (tu.id, { tel0 with is_valid := some true }) :: r.2.2)
      | Except.error err =>
          (r.1,
           { tool_use_id := tu.id,
             content := [ToolResultContentBlock.text ("Failed to validate tool parameters: " ++ err)],
             status := ToolResultStatus.error } :: r.2.1,
           (tu.id, { tel0 with is_valid := some false }) :: r.2.2)
    | Except.error err =>
        (r.1, err :: r.2.1, (tu.id, { tel0 with is_valid := some false }) :: r.2.2)

/-- Model of `validate_tools` (mod.rs lines 1318-1415).  `tryFrom` is the
`Tool::try_from` conversion, an explicit parameter because the tool variants
live outside the sources in scope. -/
def ChatContext.validate_tools (tryFrom : ToolUse → Except ToolResult Tool)
    (c : ChatContext) (tool_uses : List ToolUse) :
    ChatContext × Except ChatError ChatState :=
  let v := validateFold tryFrom c.conversation_state.conversation_id c.conversation_state.message_id tool_uses
  let queued_tools := v.1
  let tool_results := v.2.1
  let c := { c with tool_use_telemetry_events := v.2.2.foldl (fun m (p : String × ToolUseEventBuilder) => insertReplace m p.1 p.2) c.tool_use_telemetry_events }
  if tool_results ≠ [] then
    let c := c.pushOut [OutEvent.printText ("Tool validation failed: "), OutEvent.validationResults tool_results]
    let c := c.setConv (c.conversation_state.add_tool_results tool_results)
    let c := c.send_tool_use_telemetry
    let c := c.flipRetryIfIdle
    c.sendThen
  else
    let skip_acceptance := c.accept_all || queued_tools.all fun tool => ! tool.2.requires_acceptance
    match skip_acceptance, c.interactive with
    | true, _ =>
      (match c.print_tool_descriptions queued_tools with
       | (c, none) => (c, Except.ok (ChatState.executeTools queued_tools))
       | (c, some e) => (c, Except.error e))
    | false, true => (c, Except.ok (ChatState.promptUser (some queued_tools) false))
    | false, false => (c, Except.error ChatError.nonInteractiveToolApproval)

/-- Model of `handle_input` (mod.rs lines 592-1013). -/
def ChatContext.handle_input (c : ChatContext) (user_input : String)
    (tool_uses : Option (List QueuedTool)) : ChatContext × Except ChatError ChatState :=
  match Command.parse user_input with
  | Except.error error_message =>
      (c.pushOut [OutEvent.printText ("Error: " ++ error_message)],
       Except.ok (ChatState.promptUser tool_uses true))
  | Except.ok command =>
    let tool_uses := tool_uses.getD []
    match command with
    | Command.ask prompt =>
      if (prompt = "y" ∨ prompt = "Y") ∧ tool_uses ≠ [] then
        (c, Except.ok (ChatState.executeTools tool_uses))
      else
        let c := { c with tool_use_status := ToolUseStatus.idle }
        let c := if c.interactive then { c with spinner := some ("Thinking...") } else c
        let c :=
          if tool_uses.isEmpty then
            c.setConv (c.conversation_state.append_new_user_message user_input)
          else
            c.setConv (c.conversation_state.abandon_tool_use tool_uses user_input)
        let c := c.send_tool_use_telemetry
        c.sendThen
    | Command.execute command =>
        (c.pushOut [OutEvent.bashExec command], Except.ok (ChatState.promptUser none false))
    | Command.clear =>
        let c := c.setConv c.conversation_state.clear
        let c := c.pushOut [OutEvent.printText ("Conversation history cleared.")]
        (c, Except.ok (ChatState.promptUser none true))
    | Command.help =>
        (c.pushOut [OutEvent.printText ("HELP_TEXT")],
         Except.ok (ChatState.promptUser (some tool_uses) true))
    | Command.issue prompt =>
        let base := "I would like to report an issue or make a feature request"
        (c, Except.ok (ChatState.handleInput
          (match prompt with
           | some p => base ++ ": " ++ p
           | none => base)
          (some tool_uses)))
    | Command.acceptAll =>
        let c := { c with accept_all := ! c.accept_all }
        let c := c.pushOut [OutEvent.printText ("acceptall toggled")]
        (c, Except.ok (ChatState.promptUser (some tool_uses) true))
    | Command.quit => (c, Except.ok ChatState.exit)
    | Command.profile sub =>
        let c := if c.conversation_state.has_context_manager then c.pushOut [OutEvent.profileCmd sub] else c
        (c, Except.ok (ChatState.promptUser (some tool_uses) true))
    | Command.context sub =>
        let c :=
          if c.conversation_state.has_context_manager then c.pushOut [OutEvent.contextCmd sub]
          else c.pushOut [OutEvent.printText ("Context management is not available.")]
        (c, Except.ok (ChatState.promptUser (some tool_uses) true))

/-- Result of the read loop inside `prompt_user`. -/
inductive PromptRead
  | line (s : String)
  | exitNow
deriving DecidableEq, Repr

/-- The read loop of `prompt_user` (mod.rs lines 563-583): a first EOF (a
read_line call yielding no line) prints the exit hint and raises the `ctrl_c`
flag, a second consecutive EOF leaves with the exit outcome, and any read line
leaves with that line.  Exhausting the scripted input source is modelled as a
readline error. -/
def promptReadLoop (c : ChatContext) : Bool → List (Option String) →
    ChatContext × List (Option String) × Except ChatError PromptRead
  | _, [] => (c, [], Except.error (ChatError.readline ("input source exhausted")))
  | ctrl_c, item :: rest =>
    match item, ctrl_c with
    | some line, _ => (c, rest, Except.ok (PromptRead.line line))
    | none, false => promptReadLoop (c.pushOut [OutEvent.ctrlcHint]) true rest
    | none, true => (c, rest, Except.ok PromptRead.exitNow)

/-- Model of `prompt_user` (mod.rs lines 535-590). -/
def ChatContext.prompt_user (c : ChatContext) (tool_uses : Option (List QueuedTool))
    (skip_printing_tools : Bool) : ChatContext × Except ChatError ChatState :=
  let tool_uses := tool_uses.getD []
  let pd :=
    if tool_uses ≠ [] ∧ skip_printing_tools = false then
      match c.print_tool_descriptions tool_uses with
      | (c, none) => (c.pushOut [OutEvent.approvalHint (tool_uses.length = 1)], (none : Option ChatError))
      | (c, some e) => (c, some e)
    else (c, none)
  match pd with
  | (c, some e) => (c, Except.error e)
  | (c, none) =>
    match promptReadLoop c false c.input_source with
    | (c, rest, r) =>
      let c := { c with input_source := rest }
      match r with
      | Except.error e => (c, Except.error e)
      | Except.ok PromptRead.exitNow => (c, Except.ok ChatState.exit)
      | Except.ok (PromptRead.line user_input) =>
          (c.setConv (c.conversation_state.append_user_transcript user_input),
           Except.ok (ChatState.handleInput user_input (some tool_uses)))

/-- The per-tool loop of `tool_use_execute` (mod.rs lines 1020-1098): telemetry
marking, the invoke call (recorded as an `invokeTool` event), the result print,
the tool-result accumulation and the retry-status flip on failure. -/
def executeFold (c : ChatContext) (tool_results : List ToolResult) :
    List QueuedTool → ChatContext × List ToolResult
  | [] => (c, tool_results)
  | tool :: rest =>
    let c := { c with tool_use_telemetry_events := andModifyAccepted c.tool_use_telemetry_events tool.1 }
    let c := c.pushOut [OutEvent.invokeHeader tool.2.display_name_action, OutEvent.invokeTool tool.1 tool.2]
    match tool.2.invokeResult with
    | Except.ok result =>
        let c := c.pushOut [OutEvent.invokeSuccess tool.1]
        let c := { c with tool_use_telemetry_events := andModifySuccess c.tool_use_telemetry_events tool.1 true }
        executeFold c (tool_results ++ [{ tool_use_id := tool.1, content := [result], status := ToolResultStatus.success }]) rest
    | Except.error err =>
        let c := c.pushOut [OutEvent.invokeFailure tool.1 err]
        let c := { c with tool_use_telemetry_events := andModifySuccess c.tool_use_telemetry_events tool.1 false }
        let c := c.flipRetryIfIdle
        executeFold c (tool_results ++ [{ tool_use_id := tool.1, content := [ToolResultContentBlock.text ("An error occurred processing the tool: \n" ++ err)], status := ToolResultStatus.error }]) rest

/-- Model of `tool_use_execute` (mod.rs lines 1016-1107). -/
def ChatContext.tool_use_execute (c : ChatContext) (tool_uses : List QueuedTool) :
    ChatContext × Except ChatError ChatState :=
  match executeFold c [] tool_uses with
  | (c, tool_results) =>
    let c := c.setConv (c.conversation_state.add_tool_results tool_results)
    let c := c.send_tool_use_telemetry
    c.sendThen

/-- Local loop state of `handle_response` (mod.rs lines 1110-1117); the markdown
rendering of `buf` happens through `parse.rs` (outside the sources in scope)
and changes no driver state, so it is elided. -/
structure HRState where
  buf : String
  ended : Bool
  tool_uses : List ToolUse
  tool_name_being_recvd : Option String
deriving DecidableEq, Repr

/-- The event loop of `handle_response` (mod.rs lines 1118-1315).  An empty
remainder without an end event cannot arise from the response parser (which
emits `EndStream` when the underlying stream closes) and is modelled as a
custom error. -/
def handleResponseGo (c : ChatContext) (st : HRState) :
    List (Except RecvError ResponseEvent) → ChatContext × Except ChatError ChatState
  | [] => (c, Except.error (ChatError.custom ("response stream ended unexpectedly")))
  | item :: rest =>
    match item with
    | Except.error recv_error =>
      let c := { c with failed_request_ids := c.failed_request_ids ++ (match recv_error.request_id with | some id => [id] | none => []) }
      match recv_error.source with
      | RecvErrorKind.streamTimeout _ =>
        let c := if c.interactive then { c with spinner := some ("Dividing up the work...") } else c
        let cs := c.conversation_state.push_assistant_message { message_id := none, content := "Response timed out - message took too long to generate", tool_uses := none }
        let cs := cs.append_new_user_message ("You took too long to respond - try to split up the work into smaller steps.")
        let c := c.setConv cs
        let c := c.send_tool_use_telemetry
        c.sendThen
      | RecvErrorKind.unexpectedToolUseEos tool_use_id _ message =>
        let c := if c.interactive then { c with spinner := some ("The generated tool use was too large, trying to divide up the work...") } else c
        let cs := c.conversation_state.push_assistant_message message
        let cs := cs.add_tool_results [{ tool_use_id := tool_use_id, content := [ToolResultContentBlock.text ("The generated tool was too large, try again but this time split up the work between multiple tool uses")], status := ToolResultStatus.error }]
        let c := c.setConv cs
        let c := c.send_tool_use_telemetry
        c.sendThen
      | RecvErrorKind.other _ => (c, Except.error (ChatError.responseStream recv_error))
    | Except.ok ev =>
      let p :=
        match ev with
        | ResponseEvent.toolUseStart name =>
            (c, { st with buf := st.buf ++ "\n", tool_name_being_recvd := some name })
        | ResponseEvent.assistantText text =>
            (c, { st with buf := st.buf ++ text })
        | ResponseEvent.toolUse tu =>
            (if c.interactive ∧ c.spinner.isSome then { (c.pushOut [OutEvent.clearLine]) with spinner := none } else c,
             { st with tool_uses := st.tool_uses ++ [tu], tool_name_being_recvd := none })
        | ResponseEvent.endStream message =>
            (c.setConv (c.conversation_state.push_assistant_message message), { st with ended := true })
      match p with
      | (c, st) =>
        let st := if st.ended then { st with buf := st.buf ++ "\n" } else st
        let c :=
          if st.tool_name_being_recvd = none ∧ st.buf ≠ "" ∧ c.interactive ∧ c.spinner.isSome
          then { (c.pushOut [OutEvent.clearLine]) with spinner := none }
          else c
        let c :=
          match st.tool_name_being_recvd, c.interactive with
          | some name, true => { (c.pushOut [OutEvent.recvToolName name]) with spinner := some ("Thinking...") }
          | _, _ => c
        if st.ended then
          let c :=
            match c.conversation_state.message_id with
            | some message_id => c.pushOut [OutEvent.chatAddedMessage c.conversation_state.conversation_id message_id]
            | none => c
          (c, Except.ok (if st.tool_uses ≠ [] then ChatState.validateTools st.tool_uses else ChatState.promptUser none false))
        else handleResponseGo c st rest

/-- Model of `handle_response` (mod.rs lines 1109-1316), over the event
sequence the response parser yields from the stream. -/
def ChatContext.handle_response (c : ChatContext) (response : Response) :
    ChatContext × Except ChatError ChatState :=
  handleResponseGo c { buf := "", ended := false, tool_uses := [], tool_name_being_recvd := none } response

/-- Error handling at the bottom of the `try_chat` loop (mod.rs lines 443-529):
stop the spinner if shown, print the error report (recording the sanitized text
in the transcript), handle an interruption by abandoning any pending tools and
pushing the synthetic assistant message, run `fix_history`, and return to
`PromptUser`. -/
def ChatContext.handle_loop_error (c : ChatContext) (e : ChatError) : ChatContext × ChatState :=
  let c :=
    if c.interactive ∧ c.spinner.isSome
    then { (c.pushOut [OutEvent.clearLine]) with spinner := none }
    else c
  let c :=
    match e with
    | ChatError.interrupted inter =>
      let c := c.pushOut [OutEvent.printText ("\n\n")]
      (match inter with
       | some tool_uses =>
          let cs := c.conversation_state.abandon_tool_use tool_uses ("The user interrupted the tool execution.")
          let cs := cs.as_sendable
          let cs := cs.push_assistant_message { message_id := none, content := "Tool uses were interrupted, waiting for the next user prompt", tool_uses := none }
          c.setConv cs
       | none => c)
    | ChatError.client err =>
      (match err with
       | ApiClientError.quotaBreach msg =>
          let c := c.pushOut [OutEvent.errorReport msg none]
          c.setConv (c.conversation_state.append_transcript msg)
       | _ =>
          let text := stripNonAscii ("Amazon Q is having trouble responding right now" ++ ": " ++ err.display ++ "\n")
          let c := c.pushOut [OutEvent.errorReport ("Amazon Q is having trouble responding right now") (some text)]
          c.setConv (c.conversation_state.append_transcript text))
    | _ =>
        let text := stripNonAscii ("Amazon Q is having trouble responding right now" ++ ": " ++ e.display ++ "\n")
        let c := c.pushOut [OutEvent.errorReport ("Amazon Q is having trouble responding right now") (some text)]
        c.setConv (c.conversation_state.append_transcript text)
  let c := c.setConv c.conversation_state.fix_history
  (c, ChatState.promptUser none false)

/-- Outcome of one `try_chat` loop iteration: either a next state, or a normal
return of `try_chat` (which the caller `chat` maps to `ExitCode::SUCCESS`). -/
inductive StepResult
  | next (c : ChatContext) (s : ChatState)
  | done (c : ChatContext)
deriving DecidableEq, Repr

/-- One iteration of the `try_chat` loop (mod.rs lines 404-531).  `interrupted`
tells whether the interrupt signal wins the select race for the three
long-running states; errors from the active operation go through
`handle_loop_error`. -/
def ChatContext.stepChat (tryFrom : ToolUse → Except ToolResult Tool)
    (c : ChatContext) (s : ChatState) (interrupted : Bool) : StepResult :=
  let handle : ChatContext × Except ChatError ChatState → StepResult := fun r =>
    match r with
    | (c, Except.ok s) => StepResult.next c s
    | (c, Except.error e) =>
        match c.handle_loop_error e with
        | (c, s) => StepResult.next c s
  match s with
  | ChatState.promptUser tool_uses skip_printing_tools =>
      if c.interactive = false then StepResult.done c
      else handle (c.prompt_user tool_uses skip_printing_tools)
  | ChatState.handleInput input tool_uses => handle (c.handle_input input tool_uses)
  | ChatState.executeTools tool_uses =>
      if interrupted then handle (c, Except.error (ChatError.interrupted (some tool_uses)))
      else handle (c.tool_use_execute tool_uses)
  | ChatState.validateTools tool_uses =>
      if interrupted then handle (c, Except.error (ChatError.interrupted none))
      else handle (c.validate_tools tryFrom tool_uses)
  | ChatState.handleResponseStream response =>
      if interrupted then handle (c, Except.error (ChatError.interrupted none))
      else handle (c.handle_response response)
  | ChatState.exit => StepResult.done c

/-- Fueled run of the `try_chat` loop without interrupts; `some c` corresponds
to `try_chat` returning `Ok(())` with final driver state `c`. -/
def runChat (tryFrom : ToolUse → Except ToolResult Tool) :
    Nat → ChatContext → ChatState → Option ChatContext
  | 0, _, _ => none
  | fuel + 1, c, s =>
    match c.stepChat tryFrom s false with
    | StepResult.next c s => runChat tryFrom fuel c s
    | StepResult.done c => some c

/-- Exit-code mapping of `chat` (mod.rs line 213): a normal return of
`try_chat` is mapped to `ExitCode::SUCCESS`, i.e. exit code 0. -/
def chatExitCode (r : Option ChatContext) : Option Nat := r.map fun _ => 0

/-- Model of `DocMetricsBuilder::build` (lines 321-338): the eight optional
fields pass through unchanged, the four character counters default to 0
(`unwrap_or_default` on i32). -/
def DocMetricsBuilder.build (b : DocMetricsBuilder) : DocMetrics :=
  { accepted_number_of_add_files := b.accepted_number_of_add_files
    total_number_of_add_files := b.total_number_of_add_files
    accepted_number_of_update_files := b.accepted_number_of_update_files
    total_number_of_update_files := b.total_number_of_update_files
    accepted_number_of_add_lines := b.accepted_number_of_add_lines
    total_number_of_add_lines := b.total_number_of_add_lines
    accepted_number_of_update_lines := b.accepted_number_of_update_lines
    total_number_of_update_lines := b.total_number_of_update_lines
    characters_added_accepted := b.characters_added_accepted.getD 0
    characters_added_total := b.characters_added_total.getD 0
    characters_updated_accepted := b.characters_updated_accepted.getD 0
    characters_updated_total := b.characters_updated_total.getD 0 }

/-- Ids of the tools actually invoked, read off the output trace: `invoke` is
called exactly where an `invokeTool` event is emitted (mod.rs line 1033). -/
def executedTools (out : List OutEvent) : List String :=
  out.filterMap fun e =>
    match e with
    | OutEvent.invokeTool id _ => some id
    | _ => none

/-- Invariant of the driver loop: a non-interactive session never shows a
spinner (every spinner assignment in the source is guarded by
`self.interactive`). -/
def spinnerInv (c : ChatContext) : Prop := c.interactive = false → c.spinner = none

/-! ## Concrete instances used by closed theorems and witnesses -/

/-- A tool that validates, requires acceptance, and describes and invokes
successfully. -/
def exTool : Tool :=
  { display_name := "fs write", display_name_action := "Writing",
    validateResult := Except.ok (), requires_acceptance := true,
    queue_description := Except.ok (),
    invokeResult := Except.ok (ToolResultContentBlock.text ("done")) }

/-- A tool that requires no acceptance. -/
def exToolFree : Tool :=
  { display_name := "read", display_name_action := "Reading",
    validateResult := Except.ok (), requires_acceptance := false,
    queue_description := Except.ok (),
    invokeResult := Except.ok (ToolResultContentBlock.text ("done")) }

def exToolUse : ToolUse := { id := "1", name := "fs_write", args := "null" }

def exQueued : QueuedTool := ("1", exTool)

/-- A conversion that always succeeds with `exTool`. -/
def exTryFromOk : ToolUse → Except ToolResult Tool := fun _ => Except.ok exTool

/-- A conversion that always fails with an error tool-result, as
`Tool::try_from` does for an unknown tool name. -/
def exTryFromErr : ToolUse → Except ToolResult Tool := fun tu =>
  Except.error
    { tool_use_id := tu.id,
      content := [ToolResultContentBlock.text ("The tool provided is not supported")],
      status := ToolResultStatus.error }

def exConv : ConvState :=
  { conversation_id := "conv1", message_id := none, has_context_manager := false, ops := [] }

/-- A non-interactive session context with no pending anything. -/
def exCtxNI : ChatContext :=
  { interactive := false, accept_all := false, tool_use_status := ToolUseStatus.idle,
    conversation_state := exConv, spinner := none, failed_request_ids := [],
    tool_use_telemetry_events := [], input_source := [], client := [], output := [] }

/-- A mock-script object whose args serialization is the four ASCII bytes of
`null`; its byte midpoint 2 is a character boundary. -/
def exMockGood : MockToolUse := { tool_use_id := "1", name := "t", args := "null" }

/-- A mock-script object whose args serialization is that of the JSON string
holding the single character U+00E9: the four bytes 22 C3 A9 22.  Its byte
midpoint 2 falls inside the two-byte character, so `str::split_at` panics. -/
def exMockBad : MockToolUse :=
  { tool_use_id := "1", name := "t",
    args := String.mk [Char.ofNat 34, Char.ofNat 233, Char.ofNat 34] }

/-- An interactive session context with one scripted response available. -/
def exCtxI : ChatContext :=
  { interactive := true, accept_all := false, tool_use_status := ToolUseStatus.idle,
    conversation_state := exConv, spinner := none, failed_request_ids := [],
    tool_use_telemetry_events := [], input_source := [],
    client := [([] : Response)], output := [] }

/-! ## Theorems: truncate_safe (claim C9) -/

theorem takeBytes_starts (n : Nat) (s : List Char) : startsList (takeBytes n s) s := by
  induction s generalizing n with
  | nil => exact ⟨[], rfl⟩
  | cons c r ih =>
    simp only [takeBytes]
    split
    · obtain ⟨t, ht⟩ := ih (n - c.utf8Size)
      exact ⟨t, by rw [List.cons_append, ht]⟩
    · exact ⟨c :: r, rfl⟩

theorem takeBytes_le (n : Nat) (s : List Char) : utf8ByteLen (takeBytes n s) ≤ n := by
  induction s generalizing n with
  | nil => simp [takeBytes, utf8ByteLen]
  | cons c r ih =>
    simp only [takeBytes]
    split
    · rename_i h
      have h2 := ih (n - c.utf8Size)
      simp only [utf8ByteLen]
      omega
    · simp [utf8ByteLen]

theorem takeBytes_of_fits (n : Nat) (s : List Char) (h : utf8ByteLen s ≤ n) :
    takeBytes n s = s := by
  induction s generalizing n with
  | nil => simp [takeBytes]
  | cons c r ih =>
    simp only [utf8ByteLen] at h
    have hc : c.utf8Size ≤ n := by omega
    simp only [takeBytes, if_pos hc]
    rw [ih (n - c.utf8Size) (by omega)]

theorem takeBytes_maximal (n : Nat) (s p : List Char) (hp : startsList p s)
    (hb : utf8ByteLen p ≤ n) : startsList p (takeBytes n s) := by
  induction p generalizing s n with
  | nil => exact ⟨takeBytes n s, rfl⟩
  | cons c p2 ih =>
    obtain ⟨t, ht⟩ := hp
    cases s with
    | nil => exact absurd ht (by simp)
    | cons d r =>
      rw [List.cons_append] at ht
      injection ht with h1 h2
      subst h1
      subst h2
      simp only [utf8ByteLen] at hb
      have hc : c.utf8Size ≤ n := by omega
      simp only [takeBytes, if_pos hc]
      obtain ⟨u, hu⟩ := ih (n - c.utf8Size) (p2 ++ t) ⟨t, rfl⟩ (by omega)
      exact ⟨u, by rw [List.cons_append, hu]⟩

theorem takeBytes_self (n : Nat) (s : List Char) :
    takeBytes (utf8ByteLen (takeBytes n s)) s = takeBytes n s := by
  induction s generalizing n with
  | nil => simp [takeBytes]
  | cons c r ih =>
    by_cases hc : c.utf8Size ≤ n
    · simp only [takeBytes, if_pos hc, utf8ByteLen]
      have hc2 : c.utf8Size ≤ c.utf8Size + utf8ByteLen (takeBytes (n - c.utf8Size) r) :=
        Nat.le_add_right _ _
      rw [if_pos hc2, Nat.add_sub_cancel_left, ih (n - c.utf8Size)]
    · have hpos := Char.utf8Size_pos c
      simp only [takeBytes, if_neg hc, utf8ByteLen]
      rw [if_neg (by omega)]

theorem truncCount_stop (max_bytes : Nat) (s : List Char) : ∀ bi bc, bc ≤ bi →
    max_bytes < bi → truncByteCount max_bytes s bi bc = bc := by
  induction s with
  | nil => intro bi bc _ _; rfl
  | cons c r _ =>
    intro bi bc h1 h2
    simp only [truncByteCount]
    rw [if_pos (by omega)]

theorem truncCount_eq (max_bytes : Nat) (s : List Char) : ∀ bi bc, bc ≤ bi →
    bi ≤ max_bytes → max_bytes < bi + utf8ByteLen s →
    truncByteCount max_bytes s bi bc = bi + utf8ByteLen (takeBytes (max_bytes - bi) s) := by
  induction s with
  | nil =>
    intro bi bc h1 h2 h3
    simp only [utf8ByteLen] at h3
    omega
  | cons c r ih =>
    intro bi bc h1 h2 h3
    simp only [utf8ByteLen] at h3
    simp only [truncByteCount]
    rw [if_neg (by omega)]
    by_cases hc : bi + c.utf8Size ≤ max_bytes
    · rw [ih (bi + c.utf8Size) bi (by omega) hc (by omega)]
      have hsz : c.utf8Size ≤ max_bytes - bi := by omega
      simp only [takeBytes, if_pos hsz, utf8ByteLen]
      have heq : max_bytes - bi - c.utf8Size = max_bytes - (bi + c.utf8Size) := by omega
      rw [heq]
      omega
    · rw [truncCount_stop max_bytes r (bi + c.utf8Size) bi (by omega) (by omega)]
      have hsz : ¬ c.utf8Size ≤ max_bytes - bi := by omega
      simp only [takeBytes, if_neg hsz, utf8ByteLen]
      omega

theorem truncate_safe_eq_takeBytes (s : List Char) (max_bytes : Nat) :
    truncate_safe s max_bytes = takeBytes max_bytes s := by
  rw [truncate_safe]
  split
  · rename_i h
    rw [takeBytes_of_fits max_bytes s h]
  · rename_i h
    rw [truncCount_eq max_bytes s 0 0 (Nat.le_refl 0) (Nat.zero_le _) (by omega)]
    simp only [Nat.zero_add, Nat.sub_zero]
    exact takeBytes_self max_bytes s

/-- C9: `truncate_safe s max_bytes` returns the longest prefix of `s` that ends
on a UTF-8 character boundary (every position in the `List Char` representation
is such a boundary) and whose byte length is at most `max_bytes`; in particular
the result is a prefix of `s`, never exceeds `max_bytes` bytes, and equals `s`
whenever `s` has at most `max_bytes` bytes. -/
theorem claim_c9 (s : List Char) (max_bytes : Nat) :
    startsList (truncate_safe s max_bytes) s
    ∧ utf8ByteLen (truncate_safe s max_bytes) ≤ max_bytes
    ∧ (utf8ByteLen s ≤ max_bytes → truncate_safe s max_bytes = s)
    ∧ (∀ p, startsList p s → utf8ByteLen p ≤ max_bytes →
        startsList p (truncate_safe s max_bytes)) := by
  rw [truncate_safe_eq_takeBytes]
  exact ⟨takeBytes_starts _ _, takeBytes_le _ _, fun h => takeBytes_of_fits _ _ h,
    fun p hp hb => takeBytes_maximal _ _ _ hp hb⟩

/-- Witness for C9 at a concrete two-byte-character input. -/
theorem claim_c9_witness :
    utf8ByteLen [Char.ofNat 97] ≤ 2
    ∧ startsList [Char.ofNat 97] (truncate_safe [Char.ofNat 97, Char.ofNat 233, Char.ofNat 98] 2) :=
  ⟨by decide,
   (claim_c9 [Char.ofNat 97, Char.ofNat 233, Char.ofNat 98] 2).2.2.2 [Char.ofNat 97]
     ⟨[Char.ofNat 233, Char.ofNat 98], rfl⟩ (by decide)⟩

/-! ## Theorems: mock tool-use splitting (claim C8) -/

theorem strMk_append (a b : List Char) : String.mk a ++ String.mk b = String.mk (a ++ b) := rfl

theorem splitAtBytes_append (l : List Char) : ∀ (i : Nat) (a b : List Char),
    splitAtBytes i l = some (a, b) → a ++ b = l := by
  induction l with
  | nil =>
    intro i a b h
    cases i with
    | zero =>
      simp [splitAtBytes] at h
      obtain ⟨h1, h2⟩ := h
      subst h1
      subst h2
      rfl
    | succ j => simp [splitAtBytes] at h
  | cons c r ih =>
    intro i a b h
    cases i with
    | zero =>
      simp [splitAtBytes] at h
      obtain ⟨h1, h2⟩ := h
      subst h1
      subst h2
      rfl
    | succ j =>
      simp only [splitAtBytes] at h
      split at h
      · cases hrec : splitAtBytes (j + 1 - c.utf8Size) r with
        | none => rw [hrec] at h; simp at h
        | some p =>
          rcases p with ⟨a2, b2⟩
          rw [hrec] at h
          simp at h
          rw [← h.1, ← h.2, List.cons_append, ih _ _ _ hrec]
      · simp at h

/-- C8 counterexample: for the mock-script object whose args serialize to the
four bytes 22 C3 A9 22 (the JSON string holding U+00E9), the byte midpoint
`len / 2 = 2` is not a UTF-8 character boundary, `str::split_at` panics, and
the expansion produces no fragments at all, so the claim that every
mock-script object expands into four fragments fails at this input. -/
theorem claim_c8_counterexample :
    split_tool_use_event exMockBad = none
    ∧ ∀ evs : List ChatResponseStream, ¬ split_tool_use_event exMockBad = some evs := by
  have h0 : split_tool_use_event exMockBad = none := by decide
  refine ⟨h0, ?_⟩
  intro evs h
  rw [h0] at h
  exact Option.noConfusion h

/-- C8 as amended: for every mock-script object whose args serialization has
its byte midpoint `len / 2` on a UTF-8 character boundary (for any other
object `str::split_at` panics and no fragments are produced), the expansion
produces exactly four `ToolUseEvent` fragments sharing the same tool_use_id
and name: the first with no input and no stop, the second and third whose
input strings concatenate in order to exactly the JSON serialization of the
args, and the fourth with no input and stop set; reassembling the input
fragments in arrival order reproduces the original args JSON. -/
theorem claim_c8 (v : MockToolUse) (a b : List Char)
    (hsplit : splitAtBytes (utf8ByteLen v.args.data / 2) v.args.data = some (a, b)) :
    split_tool_use_event v =
      some [ChatResponseStream.toolUseEvent v.tool_use_id v.name none none,
            ChatResponseStream.toolUseEvent v.tool_use_id v.name (some (String.mk a)) none,
            ChatResponseStream.toolUseEvent v.tool_use_id v.name (some (String.mk b)) none,
            ChatResponseStream.toolUseEvent v.tool_use_id v.name none (some true)]
    ∧ String.mk a ++ String.mk b = v.args
    ∧ (∀ evs, split_tool_use_event v = some evs → inputConcat evs = v.args) := by
  have happ : a ++ b = v.args.data := splitAtBytes_append _ _ _ _ hsplit
  have hfrag : split_tool_use_event v =
      some [ChatResponseStream.toolUseEvent v.tool_use_id v.name none none,
            ChatResponseStream.toolUseEvent v.tool_use_id v.name (some (String.mk a)) none,
            ChatResponseStream.toolUseEvent v.tool_use_id v.name (some (String.mk b)) none,
            ChatResponseStream.toolUseEvent v.tool_use_id v.name none (some true)] := by
    simp [split_tool_use_event, hsplit]
  refine ⟨hfrag, ?_, ?_⟩
  · rw [strMk_append, happ]
  · intro evs hevs
    rw [hfrag] at hevs
    injection hevs with hevs
    rw [← hevs]
    show ((("" : String) ++ String.mk a) ++ String.mk b) = v.args
    rw [show (("" : String) ++ String.mk a) = String.mk a from rfl]
    rw [strMk_append, happ]

/-- Witness for C8 (amended) at an ASCII args serialization. -/
theorem claim_c8_witness :
    split_tool_use_event exMockGood =
      some [ChatResponseStream.toolUseEvent exMockGood.tool_use_id exMockGood.name none none,
            ChatResponseStream.toolUseEvent exMockGood.tool_use_id exMockGood.name
              (some (String.mk [Char.ofNat 110, Char.ofNat 117])) none,
            ChatResponseStream.toolUseEvent exMockGood.tool_use_id exMockGood.name
              (some (String.mk [Char.ofNat 108, Char.ofNat 108])) none,
            ChatResponseStream.toolUseEvent exMockGood.tool_use_id exMockGood.name none
              (some true)]
    ∧ String.mk [Char.ofNat 110, Char.ofNat 117] ++ String.mk [Char.ofNat 108, Char.ofNat 108] =
        exMockGood.args := by
  have h := claim_c8 exMockGood [Char.ofNat 110, Char.ofNat 117]
    [Char.ofNat 108, Char.ofNat 108] (by decide)
  exact ⟨h.1, h.2.1⟩

/-! ## Theorems: DocMetrics builder (claim C10) -/

/-- C10: `build` passes the eight optional i64 fields through unchanged, maps
each of the four i32 character counters to its value when set and to 0 when
unset, and setting any field on the builder then reading the corresponding
field of the built `DocMetrics` returns the value just set. -/
theorem claim_c10 (b : DocMetricsBuilder) (v : Int) :
    (b.build.accepted_number_of_add_files = b.accepted_number_of_add_files
      ∧ b.build.total_number_of_add_files = b.total_number_of_add_files
      ∧ b.build.accepted_number_of_update_files = b.accepted_number_of_update_files
      ∧ b.build.total_number_of_update_files = b.total_number_of_update_files
      ∧ b.build.accepted_number_of_add_lines = b.accepted_number_of_add_lines
      ∧ b.build.total_number_of_add_lines = b.total_number_of_add_lines
      ∧ b.build.accepted_number_of_update_lines = b.accepted_number_of_update_lines
      ∧ b.build.total_number_of_update_lines = b.total_number_of_update_lines)
    ∧ (({ b with characters_added_accepted := some v } : DocMetricsBuilder).build.characters_added_accepted = v
      ∧ ({ b with characters_added_total := some v } : DocMetricsBuilder).build.characters_added_total = v
      ∧ ({ b with characters_updated_accepted := some v } : DocMetricsBuilder).build.characters_updated_accepted = v
      ∧ ({ b with characters_updated_total := some v } : DocMetricsBuilder).build.characters_updated_total = v)
    ∧ (({ b with characters_added_accepted := none } : DocMetricsBuilder).build.characters_added_accepted = 0
      ∧ ({ b with characters_added_total := none } : DocMetricsBuilder).build.characters_added_total = 0
      ∧ ({ b with characters_updated_accepted := none } : DocMetricsBuilder).build.characters_updated_accepted = 0
      ∧ ({ b with characters_updated_total := none } : DocMetricsBuilder).build.characters_updated_total = 0)
    ∧ ((b.set_accepted_number_of_add_files (some v)).build.accepted_number_of_add_files = some v
      ∧ (b.set_total_number_of_add_files (some v)).build.total_number_of_add_files = some v
      ∧ (b.set_accepted_number_of_update_files (some v)).build.accepted_number_of_update_files = some v
      ∧ (b.set_total_number_of_update_files (some v)).build.total_number_of_update_files = some v
      ∧ (b.set_accepted_number_of_add_lines (some v)).build.accepted_number_of_add_lines = some v
      ∧ (b.set_total_number_of_add_lines (some v)).build.total_number_of_add_lines = some v
      ∧ (b.set_accepted_number_of_update_lines (some v)).build.accepted_number_of_update_lines = some v
      ∧ (b.set_total_number_of_update_lines (some v)).build.total_number_of_update_lines = some v
      ∧ (b.set_characters_added_accepted (some v)).build.characters_added_accepted = v
      ∧ (b.set_characters_added_total (some v)).build.characters_added_total = v
      ∧ (b.set_characters_updated_accepted (some v)).build.characters_updated_accepted = v
      ∧ (b.set_characters_updated_total (some v)).build.characters_updated_total = v) :=
  ⟨⟨rfl, rfl, rfl, rfl, rfl, rfl, rfl, rfl⟩,
   ⟨rfl, rfl, rfl, rfl⟩,
   ⟨rfl, rfl, rfl, rfl⟩,
   ⟨rfl, rfl, rfl, rfl, rfl, rfl, rfl, rfl, rfl, rfl, rfl, rfl⟩⟩

/-! ## Theorems: error handling in the driver loop (claims C5, C6, C1) -/

theorem handle_loop_error_snd (c : ChatContext) (e : ChatError) :
    (c.handle_loop_error e).2 = ChatState.promptUser none false := rfl

theorem handle_loop_error_ops_last (c : ChatContext) (e : ChatError) :
    ((c.handle_loop_error e).1.conversation_state.ops).getLast? = some ConvOp.fixHistory := by
  simp only [ChatContext.handle_loop_error, ChatContext.setConv, ConvState.fix_history]
  exact List.getLast?_concat _

theorem handle_loop_error_spinner (c : ChatContext) (e : ChatError) :
    (c.handle_loop_error e).1.spinner =
      if c.interactive ∧ c.spinner.isSome then none else c.spinner := by
  by_cases h : c.interactive = true ∧ c.spinner.isSome = true
  · rw [if_pos h]
    cases e with
    | client err =>
        cases err <;>
          simp [ChatContext.handle_loop_error, ChatContext.setConv, ChatContext.pushOut, h]
    | interrupted inter =>
        cases inter <;>
          simp [ChatContext.handle_loop_error, ChatContext.setConv, ChatContext.pushOut, h]
    | _ => simp [ChatContext.handle_loop_error, ChatContext.setConv, ChatContext.pushOut, h]
  · rw [if_neg h]
    cases e with
    | client err =>
        cases err <;>
          simp [ChatContext.handle_loop_error, ChatContext.setConv, ChatContext.pushOut, h]
    | interrupted inter =>
        cases inter <;>
          simp [ChatContext.handle_loop_error, ChatContext.setConv, ChatContext.pushOut, h]
    | _ => simp [ChatContext.handle_loop_error, ChatContext.setConv, ChatContext.pushOut, h]

/-- C5: for every error returned by the active state operation in the driver
loop, after the handling at the bottom of `try_chat` the next state is
`PromptUser`, the spinner slot is `None`, and `fix_history` has been run on the
conversation state (it is the last conversation operation).  The hypothesis is
the driver-loop invariant that a non-interactive session shows no spinner,
established by `stepChat_preserves_spinnerInv`. -/
theorem claim_c5 (c : ChatContext) (e : ChatError) (hinv : spinnerInv c) :
    (c.handle_loop_error e).2 = ChatState.promptUser none false
    ∧ (c.handle_loop_error e).1.spinner = none
    ∧ ((c.handle_loop_error e).1.conversation_state.ops).getLast? = some ConvOp.fixHistory := by
  refine ⟨handle_loop_error_snd c e, ?_, handle_loop_error_ops_last c e⟩
  rw [handle_loop_error_spinner c e]
  by_cases hi : c.interactive = true
  · by_cases hs : c.spinner.isSome = true
    · rw [if_pos ⟨hi, hs⟩]
    · rw [if_neg (by simp [hs])]
      cases hv : c.spinner with
      | none => rfl
      | some v => rw [hv] at hs; simp at hs
  · rw [if_neg (by simp [hi])]
    exact hinv (by simpa using hi)

/-- Witness for C5 at a concrete context and error. -/
theorem claim_c5_witness :
    (exCtxNI.handle_loop_error (ChatError.custom ("boom"))).2 = ChatState.promptUser none false
    ∧ (exCtxNI.handle_loop_error (ChatError.custom ("boom"))).1.spinner = none
    ∧ ((exCtxNI.handle_loop_error (ChatError.custom ("boom"))).1.conversation_state.ops).getLast? =
        some ConvOp.fixHistory :=
  claim_c5 exCtxNI (ChatError.custom ("boom")) (fun _ => rfl)

/-- C6: an interrupt during `ValidateTools` or `HandleResponseStream` produces
the `Interrupted` error with `tool_uses = None` and the driver transitions to
`PromptUser` (the handling adds no abandonment, only `fix_history`); an
interrupt during `ExecuteTools` carries the pending tool list, and the handling
runs `abandon_tool_use` on that list with the interruption reason and pushes
the synthetic assistant message "Tool uses were interrupted, waiting for the
next user prompt" before returning to `PromptUser`. -/
theorem claim_c6 (tryFrom : ToolUse → Except ToolResult Tool) (c : ChatContext)
    (qts : List QueuedTool) (tus : List ToolUse) (resp : Response) :
    c.stepChat tryFrom (ChatState.validateTools tus) true =
        StepResult.next (c.handle_loop_error (ChatError.interrupted none)).1
          (ChatState.promptUser none false)
    ∧ c.stepChat tryFrom (ChatState.handleResponseStream resp) true =
        StepResult.next (c.handle_loop_error (ChatError.interrupted none)).1
          (ChatState.promptUser none false)
    ∧ (c.handle_loop_error (ChatError.interrupted none)).1.conversation_state.ops =
        c.conversation_state.ops ++ [ConvOp.fixHistory]
    ∧ c.stepChat tryFrom (ChatState.executeTools qts) true =
        StepResult.next (c.handle_loop_error (ChatError.interrupted (some qts))).1
          (ChatState.promptUser none false)
    ∧ (c.handle_loop_error (ChatError.interrupted (some qts))).1.conversation_state.ops =
        c.conversation_state.ops ++
          [ConvOp.abandonToolUse qts ("The user interrupted the tool execution."),
           ConvOp.asSendable,
           ConvOp.pushAssistantMessage
             { message_id := none,
               content := "Tool uses were interrupted, waiting for the next user prompt",
               tool_uses := none },
           ConvOp.fixHistory] := by
  refine ⟨?_, ?_, ?_, ?_, ?_⟩
  · simp only [ChatContext.stepChat, if_true]
    rw [handle_loop_error_snd]
  · simp only [ChatContext.stepChat, if_true]
    rw [handle_loop_error_snd]
  · by_cases h : c.interactive = true ∧ c.spinner.isSome = true <;>
      simp [ChatContext.handle_loop_error, ChatContext.setConv, ChatContext.pushOut,
        ConvState.fix_history, h]
  · simp only [ChatContext.stepChat, if_true]
    rw [handle_loop_error_snd]
  · by_cases h : c.interactive = true ∧ c.spinner.isSome = true <;>
      simp [ChatContext.handle_loop_error, ChatContext.setConv, ChatContext.pushOut,
        ConvState.fix_history, ConvState.abandon_tool_use, ConvState.as_sendable,
        ConvState.push_assistant_message, h]

set_option maxRecDepth 4000 in
/-- C1 (divergence witness): in a non-interactive session without accept-all,
validating a tool that requires acceptance raises the
`NonInteractiveToolApproval` error (the error report carrying its message is
printed), but the driver loop catches the error, returns to `PromptUser`, and
`try_chat` then returns normally, so `chat` maps the run to exit code 0 — not
a non-zero exit code. -/
theorem claim_c1 :
    chatExitCode (runChat exTryFromOk 2 exCtxNI (ChatState.validateTools [exToolUse])) = some 0
    ∧ (runChat exTryFromOk 2 exCtxNI (ChatState.validateTools [exToolUse])).map ChatContext.output
      = some [OutEvent.errorReport ("Amazon Q is having trouble responding right now")
          (some ("Amazon Q is having trouble responding right now: Tool approval required but --no-interactive was specified. Use --accept-all to automatically approve tools.\n"))]
    ∧ (exCtxNI.validate_tools exTryFromOk [exToolUse]).2 =
        Except.error ChatError.nonInteractiveToolApproval := by
  refine ⟨rfl, ?_, rfl⟩
  decide

/-! ## Theorems: tool validation (claims C2, C3) -/

/-- C2: if any tool use in the batch produced an error tool-result during
validation, no tool is executed (the set of invoked tools in the output trace
is unchanged); instead the tool results are attached to the conversation, the
tool-use status is `RetryInProgress` afterwards, and the conversation is
re-sent to the model (the `asSendable` snapshot follows the attachment),
entering `HandleResponseStream` with the next response. -/
theorem claim_c2 (tryFrom : ToolUse → Except ToolResult Tool) (c : ChatContext)
    (tool_uses : List ToolUse) (r : Response) (rest : List Response)
    (hres : (validateFold tryFrom c.conversation_state.conversation_id
      c.conversation_state.message_id tool_uses).2.1 ≠ [])
    (hclient : c.client = r :: rest) :
    (c.validate_tools tryFrom tool_uses).2 = Except.ok (ChatState.handleResponseStream r)
    ∧ (c.validate_tools tryFrom tool_uses).1.conversation_state.ops =
        c.conversation_state.ops ++
          [ConvOp.addToolResults (validateFold tryFrom c.conversation_state.conversation_id
              c.conversation_state.message_id tool_uses).2.1,
           ConvOp.asSendable]
    ∧ (∃ id, (c.validate_tools tryFrom tool_uses).1.tool_use_status =
        ToolUseStatus.retryInProgress id)
    ∧ executedTools (c.validate_tools tryFrom tool_uses).1.output = executedTools c.output := by
  cases hst : c.tool_use_status with
  | idle =>
    simp [ChatContext.validate_tools, ChatContext.pushOut, ChatContext.setConv,
      ChatContext.send_tool_use_telemetry, ChatContext.flipRetryIfIdle, ChatContext.sendThen,
      ChatContext.sendMessage, ConvState.add_tool_results, ConvState.as_sendable, hst, hres,
      hclient, executedTools, List.filterMap_append]
  | retryInProgress id =>
    simp [ChatContext.validate_tools, ChatContext.pushOut, ChatContext.setConv,
      ChatContext.send_tool_use_telemetry, ChatContext.flipRetryIfIdle, ChatContext.sendThen,
      ChatContext.sendMessage, ConvState.add_tool_results, ConvState.as_sendable, hst, hres,
      hclient, executedTools, List.filterMap_append]

/-- Witness for C2 at a concrete batch whose single tool fails conversion. -/
theorem claim_c2_witness :
    (exCtxI.validate_tools exTryFromErr [exToolUse]).2 =
      Except.ok (ChatState.handleResponseStream ([] : Response))
    ∧ executedTools (exCtxI.validate_tools exTryFromErr [exToolUse]).1.output =
        executedTools exCtxI.output :=
  ⟨(claim_c2 exTryFromErr exCtxI [exToolUse] [] [] (by decide) rfl).1,
   (claim_c2 exTryFromErr exCtxI [exToolUse] [] [] (by decide) rfl).2.2.2⟩

theorem print_tool_descriptions_ok (c : ChatContext) (ts : List QueuedTool)
    (h : ∀ t ∈ ts, t.2.queue_description = Except.ok ()) :
    c.print_tool_descriptions ts = (c.pushOut (ts.map OutEvent.toolDescription), none) := by
  induction ts generalizing c with
  | nil => simp [ChatContext.print_tool_descriptions, ChatContext.pushOut]
  | cons t ts ih =>
    have ht := h t (List.mem_cons_self t ts)
    simp only [ChatContext.print_tool_descriptions, ht]
    rw [ih _ (fun x hx => h x (List.mem_cons_of_mem t hx))]
    simp [ChatContext.pushOut]

/-- C3: after all tools in a batch validate successfully, the driver computes
`skip_acceptance = accept_all OR (every queued tool reports
requires_acceptance = false)`; when it is true the next state is
`ExecuteTools` with the queued tools, after their descriptions are printed,
and when it is false in a non-interactive session the operation fails with
`NonInteractiveToolApproval` (in an interactive one it prompts with the queued
tools). -/
theorem claim_c3 (tryFrom : ToolUse → Except ToolResult Tool) (c : ChatContext)
    (tool_uses : List ToolUse)
    (hres : (validateFold tryFrom c.conversation_state.conversation_id
      c.conversation_state.message_id tool_uses).2.1 = [])
    (hdesc : ∀ t ∈ (validateFold tryFrom c.conversation_state.conversation_id
      c.conversation_state.message_id tool_uses).1, t.2.queue_description = Except.ok ()) :
    ((c.accept_all || (validateFold tryFrom c.conversation_state.conversation_id
        c.conversation_state.message_id tool_uses).1.all
          (fun tool => ! tool.2.requires_acceptance)) = true →
      (c.validate_tools tryFrom tool_uses).2 =
        Except.ok (ChatState.executeTools (validateFold tryFrom
          c.conversation_state.conversation_id c.conversation_state.message_id tool_uses).1)
      ∧ (c.validate_tools tryFrom tool_uses).1.output =
          c.output ++ (validateFold tryFrom c.conversation_state.conversation_id
            c.conversation_state.message_id tool_uses).1.map OutEvent.toolDescription)
    ∧ ((c.accept_all || (validateFold tryFrom c.conversation_state.conversation_id
        c.conversation_state.message_id tool_uses).1.all
          (fun tool => ! tool.2.requires_acceptance)) = false →
      (c.interactive = false →
        (c.validate_tools tryFrom tool_uses).2 = Except.error ChatError.nonInteractiveToolApproval)
      ∧ (c.interactive = true →
        (c.validate_tools tryFrom tool_uses).2 =
          Except.ok (ChatState.promptUser (some (validateFold tryFrom
            c.conversation_state.conversation_id c.conversation_state.message_id tool_uses).1)
            false))) := by
  constructor
  · intro hskip
    have hpd := print_tool_descriptions_ok { c with tool_use_telemetry_events := (validateFold tryFrom c.conversation_state.conversation_id c.conversation_state.message_id tool_uses).2.2.foldl (fun m (p : String × ToolUseEventBuilder) => insertReplace m p.1 p.2) c.tool_use_telemetry_events } (validateFold tryFrom c.conversation_state.conversation_id c.conversation_state.message_id tool_uses).1 hdesc
    simp [ChatContext.validate_tools, hres, hskip, hpd, ChatContext.pushOut]
  · intro hskip
    constructor
    · intro hint
      simp [ChatContext.validate_tools, hres, hskip, hint]
    · intro hint
      simp [ChatContext.validate_tools, hres, hskip, hint]

/-- Witness for C3: a batch with one acceptance-free tool validates and moves
to `ExecuteTools`. -/
theorem claim_c3_witness :
    (exCtxI.validate_tools (fun _ => Except.ok exToolFree) [exToolUse]).2 =
      Except.ok (ChatState.executeTools [("1", exToolFree)]) :=
  ((claim_c3 (fun _ => Except.ok exToolFree) exCtxI [exToolUse] (by decide)
    (by decide)).1 (by decide)).1

/-! ## Theorems: user approval of queued tools (claim C4) -/

/-- C4 counterexample: with queued tools awaiting approval, the input `/help`
is NOT treated as a new user message abandoning the tool uses: it is handled
as a slash command, no conversation operation is recorded (in particular no
`abandon_tool_use`), nothing is sent to the model, and the driver returns to
`PromptUser` still holding the queued tools. -/
theorem claim_c4_counterexample :
    (exCtxI.handle_input ("/help") (some [exQueued])).2 =
      Except.ok (ChatState.promptUser (some [exQueued]) true)
    ∧ (exCtxI.handle_input ("/help") (some [exQueued])).1.conversation_state.ops = []
    ∧ (exCtxI.handle_input ("/help") (some [exQueued])).1.client = exCtxI.client := by
  refine ⟨?_, ?_, ?_⟩ <;> decide

/-- C4 as amended: with a non-empty list of queued tools awaiting approval, an
input parsing to a plain prompt of exactly `y` or `Y` transitions to
`ExecuteTools` with those tools, and any other input parsing to a plain prompt
is treated as a new user message that abandons the queued tool uses (the
`abandon_tool_use` operation with the input as reason) before the conversation
is sent to the model; slash commands and shell escapes are instead handled as
commands. -/
theorem claim_c4 (c : ChatContext) (qts : List QueuedTool) (input p : String)
    (r : Response) (rest : List Response)
    (hp : Command.parse input = Except.ok (Command.ask p))
    (hqts : qts ≠ []) :
    ((p = "y" ∨ p = "Y") →
      c.handle_input input (some qts) = (c, Except.ok (ChatState.executeTools qts)))
    ∧ (¬ (p = "y" ∨ p = "Y") → c.client = r :: rest →
      (c.handle_input input (some qts)).2 = Except.ok (ChatState.handleResponseStream r)
      ∧ (c.handle_input input (some qts)).1.conversation_state.ops =
          c.conversation_state.ops ++ [ConvOp.abandonToolUse qts input, ConvOp.asSendable]) := by
  have hemp : qts.isEmpty = false := by
    cases qts with
    | nil => exact absurd rfl hqts
    | cons a l => rfl
  constructor
  · intro hy
    simp [ChatContext.handle_input, hp, hy, hqts]
  · intro hy hclient
    by_cases hi : c.interactive = true <;>
      simp [ChatContext.handle_input, hp, hy, hemp, hclient, hi,
        ChatContext.send_tool_use_telemetry, ChatContext.sendThen, ChatContext.sendMessage,
        ChatContext.setConv, ChatContext.pushOut, ConvState.abandon_tool_use,
        ConvState.as_sendable]

/-- Witness for C4 (amended) at the plain prompt `hello` with one queued tool. -/
theorem claim_c4_witness :
    (exCtxI.handle_input ("hello") (some [exQueued])).2 =
      Except.ok (ChatState.handleResponseStream ([] : Response))
    ∧ (exCtxI.handle_input ("hello") (some [exQueued])).1.conversation_state.ops =
        exCtxI.conversation_state.ops ++
          [ConvOp.abandonToolUse [exQueued] ("hello"), ConvOp.asSendable] :=
  (claim_c4 exCtxI [exQueued] ("hello") ("hello") [] [] (by decide) (by decide)).2
    (by decide) rfl

/-! ## Theorems: two-strike EOF rule in prompt_user (claim C7) -/

/-- C7: reading input in `PromptUser` follows a two-strike rule.  A
successfully read line transitions to `HandleInput` with that line (recording
it in the transcript, printing no hint); a first EOF prints the exit hint and
continues prompting, so a following line still transitions to `HandleInput`
(the read line resets the rule only in the sense that an EOF after it in a
later `prompt_user` call starts over, since the flag is local to the loop);
two consecutive EOFs transition to `Exit`. -/
theorem claim_c7 (c : ChatContext) (tu : Option (List QueuedTool)) (l : String)
    (rest : List (Option String)) :
    ({ c with input_source := some l :: rest } : ChatContext).prompt_user tu true =
      ({ c with input_source := rest, conversation_state := c.conversation_state.append_user_transcript l },
        Except.ok (ChatState.handleInput l (some (tu.getD []))))
    ∧ ({ c with input_source := none :: some l :: rest } : ChatContext).prompt_user tu true =
      ({ c with input_source := rest, output := c.output ++ [OutEvent.ctrlcHint], conversation_state := c.conversation_state.append_user_transcript l },
        Except.ok (ChatState.handleInput l (some (tu.getD []))))
    ∧ ({ c with input_source := none :: none :: rest } : ChatContext).prompt_user tu true =
      ({ c with input_source := rest, output := c.output ++ [OutEvent.ctrlcHint] },
        Except.ok ChatState.exit) := by
  refine ⟨?_, ?_, ?_⟩ <;>
    simp [ChatContext.prompt_user, promptReadLoop, ChatContext.pushOut, ChatContext.setConv,
      ConvState.append_user_transcript]

/-! ## The spinner invariant of the driver loop (support for claim C5) -/

theorem sendMessage_preserves (c : ChatContext) :
    (c.sendMessage).1.spinner = c.spinner ∧ (c.sendMessage).1.interactive = c.interactive := by
  cases hc : c.client <;> simp [ChatContext.sendMessage, ChatContext.setConv, hc]

theorem telemetry_preserves (c : ChatContext) :
    (c.send_tool_use_telemetry).spinner = c.spinner
    ∧ (c.send_tool_use_telemetry).interactive = c.interactive :=
  ⟨rfl, rfl⟩

theorem flipRetry_preserves (c : ChatContext) :
    (c.flipRetryIfIdle).spinner = c.spinner ∧ (c.flipRetryIfIdle).interactive = c.interactive := by
  cases h : c.tool_use_status <;> simp [ChatContext.flipRetryIfIdle, h]

theorem print_tool_descriptions_preserves (ts : List QueuedTool) : ∀ (c : ChatContext),
    ((c.print_tool_descriptions ts).1).spinner = c.spinner
    ∧ ((c.print_tool_descriptions ts).1).interactive = c.interactive := by
  induction ts with
  | nil => intro c; exact ⟨rfl, rfl⟩
  | cons t ts ih =>
    intro c
    cases hq : t.2.queue_description with
    | error e => simp [ChatContext.print_tool_descriptions, hq]
    | ok u =>
      simp only [ChatContext.print_tool_descriptions, hq]
      exact ih (c.pushOut [OutEvent.toolDescription t])

theorem promptReadLoop_preserves (l : List (Option String)) : ∀ (c : ChatContext) (b : Bool),
    ((promptReadLoop c b l).1).spinner = c.spinner
    ∧ ((promptReadLoop c b l).1).interactive = c.interactive := by
  induction l with
  | nil => intro c b; exact ⟨rfl, rfl⟩
  | cons item rest ih =>
    intro c b
    cases item with
    | some line => exact ⟨rfl, rfl⟩
    | none =>
      cases b with
      | true => exact ⟨rfl, rfl⟩
      | false =>
        simp only [promptReadLoop]
        exact ih (c.pushOut [OutEvent.ctrlcHint]) true

theorem prompt_user_preserves (c : ChatContext) (tu : Option (List QueuedTool)) (skip : Bool) :
    ((c.prompt_user tu skip).1).spinner = c.spinner
    ∧ ((c.prompt_user tu skip).1).interactive = c.interactive := by
  simp only [ChatContext.prompt_user]
  by_cases hcond : (tu.getD [] ≠ [] ∧ skip = false)
  · rw [if_pos hcond]
    rcases hpd : c.print_tool_descriptions (tu.getD []) with ⟨c1, e1⟩
    have hp1 := print_tool_descriptions_preserves (tu.getD []) c
    rw [hpd] at hp1
    cases e1 with
    | some e => simp_all
    | none =>
      simp only [hpd]
      rcases hrl : promptReadLoop (c1.pushOut [OutEvent.approvalHint ((tu.getD []).length = 1)])
        false (c1.pushOut [OutEvent.approvalHint ((tu.getD []).length = 1)]).input_source
        with ⟨c3, rest3, r3⟩
      have hp3 := promptReadLoop_preserves
        (c1.pushOut [OutEvent.approvalHint ((tu.getD []).length = 1)]).input_source
        (c1.pushOut [OutEvent.approvalHint ((tu.getD []).length = 1)]) false
      rw [hrl] at hp3
      cases r3 with
      | error e => simp_all [ChatContext.pushOut, ChatContext.setConv]
      | ok pr =>
        cases pr with
        | exitNow => simp_all [ChatContext.pushOut, ChatContext.setConv]
        | line l => simp_all [ChatContext.pushOut, ChatContext.setConv]
  · rw [if_neg hcond]
    rcases hrl : promptReadLoop c false c.input_source with ⟨c3, rest3, r3⟩
    have hp3 := promptReadLoop_preserves c.input_source c false
    rw [hrl] at hp3
    cases r3 with
    | error e => simp_all
    | ok pr =>
      cases pr with
      | exitNow => simp_all
      | line l => simp_all [ChatContext.setConv]

theorem sendThen_spinner (c : ChatContext) : ((c.sendThen).1).spinner = c.spinner := by
  rcases hsm : c.sendMessage with ⟨c1, r1⟩
  have hp := sendMessage_preserves c
  rw [hsm] at hp
  cases r1 <;> simp_all [ChatContext.sendThen]

theorem sendThen_interactive (c : ChatContext) : ((c.sendThen).1).interactive = c.interactive := by
  rcases hsm : c.sendMessage with ⟨c1, r1⟩
  have hp := sendMessage_preserves c
  rw [hsm] at hp
  cases r1 <;> simp_all [ChatContext.sendThen]

theorem handle_input_preserves (c : ChatContext) (input : String)
    (tu : Option (List QueuedTool)) :
    ((c.handle_input input tu).1).interactive = c.interactive
    ∧ (c.interactive = false → ((c.handle_input input tu).1).spinner = c.spinner) := by
  cases hcmd : Command.parse input with
  | error msg => simp [ChatContext.handle_input, hcmd, ChatContext.pushOut]
  | ok cmd =>
    cases cmd with
    | ask prompt =>
      by_cases hy : ((prompt = "y" ∨ prompt = "Y") ∧ tu.getD [] ≠ [])
      · simp [ChatContext.handle_input, hcmd, hy]
      · by_cases hi : c.interactive = true <;>
          by_cases hemp : (tu.getD []).isEmpty = true <;>
          simp [ChatContext.handle_input, hcmd, hy, hi, hemp, sendThen_spinner,
            sendThen_interactive, ChatContext.send_tool_use_telemetry, ChatContext.setConv,
            ChatContext.pushOut, ConvState.append_new_user_message, ConvState.abandon_tool_use]
    | execute cmdStr => simp [ChatContext.handle_input, hcmd, ChatContext.pushOut]
    | clear =>
        simp [ChatContext.handle_input, hcmd, ChatContext.pushOut, ChatContext.setConv,
          ConvState.clear]
    | help => simp [ChatContext.handle_input, hcmd, ChatContext.pushOut]
    | issue pr => simp [ChatContext.handle_input, hcmd]
    | acceptAll => simp [ChatContext.handle_input, hcmd, ChatContext.pushOut]
    | quit => simp [ChatContext.handle_input, hcmd]
    | profile sub =>
        by_cases hm : c.conversation_state.has_context_manager = true <;>
          simp [ChatContext.handle_input, hcmd, hm, ChatContext.pushOut]
    | context sub =>
        by_cases hm : c.conversation_state.has_context_manager = true <;>
          simp [ChatContext.handle_input, hcmd, hm, ChatContext.pushOut]

theorem executeFold_preserves (ts : List QueuedTool) : ∀ (c : ChatContext)
    (acc : List ToolResult),
    ((executeFold c acc ts).1).spinner = c.spinner
    ∧ ((executeFold c acc ts).1).interactive = c.interactive := by
  induction ts with
  | nil => intro c acc; exact ⟨rfl, rfl⟩
  | cons t ts ih =>
    intro c acc
    cases hr : t.2.invokeResult with
    | ok res =>
      simp only [executeFold, hr]
      constructor
      · rw [(ih _ _).1]; simp [ChatContext.pushOut]
      · rw [(ih _ _).2]; simp [ChatContext.pushOut]
    | error err =>
      simp only [executeFold, hr]
      constructor
      · rw [(ih _ _).1, (flipRetry_preserves _).1]; simp [ChatContext.pushOut]
      · rw [(ih _ _).2, (flipRetry_preserves _).2]; simp [ChatContext.pushOut]

theorem tool_use_execute_preserves (c : ChatContext) (ts : List QueuedTool) :
    ((c.tool_use_execute ts).1).spinner = c.spinner
    ∧ ((c.tool_use_execute ts).1).interactive = c.interactive := by
  rcases hef : executeFold c [] ts with ⟨c1, res⟩
  have hp := executeFold_preserves ts c []
  rw [hef] at hp
  simp only [ChatContext.tool_use_execute, hef, sendThen_spinner, sendThen_interactive,
    ChatContext.setConv, ChatContext.send_tool_use_telemetry, ChatContext.pushOut]
  exact hp

theorem validate_tools_preserves (tryFrom : ToolUse → Except ToolResult Tool)
    (c : ChatContext) (tool_uses : List ToolUse) :
    ((c.validate_tools tryFrom tool_uses).1).spinner = c.spinner
    ∧ ((c.validate_tools tryFrom tool_uses).1).interactive = c.interactive := by
  simp only [ChatContext.validate_tools]
  by_cases hres : (validateFold tryFrom c.conversation_state.conversation_id
    c.conversation_state.message_id tool_uses).2.1 ≠ []
  · rw [if_pos hres]
    simp only [sendThen_spinner, sendThen_interactive, ChatContext.setConv,
      ChatContext.send_tool_use_telemetry, ChatContext.pushOut]
    rw [(flipRetry_preserves _).1, (flipRetry_preserves _).2]
    exact ⟨rfl, rfl⟩
  · rw [if_neg hres]
    cases hskip : (c.accept_all || (validateFold tryFrom
        c.conversation_state.conversation_id c.conversation_state.message_id tool_uses).1.all
          (fun tool => ! tool.2.requires_acceptance)) with
    | true =>
      rcases hpd : ({ c with tool_use_telemetry_events := (validateFold tryFrom c.conversation_state.conversation_id c.conversation_state.message_id tool_uses).2.2.foldl (fun m (p : String × ToolUseEventBuilder) => insertReplace m p.1 p.2) c.tool_use_telemetry_events } : ChatContext).print_tool_descriptions (validateFold tryFrom c.conversation_state.conversation_id c.conversation_state.message_id tool_uses).1 with ⟨c1, e1⟩
      have hp := print_tool_descriptions_preserves (validateFold tryFrom
        c.conversation_state.conversation_id c.conversation_state.message_id tool_uses).1
        { c with tool_use_telemetry_events := (validateFold tryFrom c.conversation_state.conversation_id c.conversation_state.message_id tool_uses).2.2.foldl (fun m (p : String × ToolUseEventBuilder) => insertReplace m p.1 p.2) c.tool_use_telemetry_events }
      rw [hpd] at hp
      cases e1 <;> simp_all
    | false =>
      cases hint : c.interactive <;> simp

theorem str_snoc_newline_ne (s : String) : (s ++ "\n") ≠ "" := by
  intro h
  have h2 := congrArg String.data h
  simp [String.data_append] at h2

theorem handleResponseGo_preserves (items : List (Except RecvError ResponseEvent)) :
    ∀ (c : ChatContext) (st : HRState),
    ((handleResponseGo c st items).1).interactive = c.interactive
    ∧ (c.interactive = false → ((handleResponseGo c st items).1).spinner = c.spinner) := by
  induction items with
  | nil => intro c st; exact ⟨rfl, fun _ => rfl⟩
  | cons item rest ih =>
    intro c st
    cases item with
    | error re =>
      cases hsrc : re.source with
      | streamTimeout d =>
          by_cases hi : c.interactive = true <;>
            simp_all [handleResponseGo, sendThen_spinner, sendThen_interactive,
              ChatContext.setConv, ChatContext.send_tool_use_telemetry, ChatContext.pushOut,
              ConvState.push_assistant_message, ConvState.append_new_user_message]
      | unexpectedToolUseEos a b m =>
          by_cases hi : c.interactive = true <;>
            simp_all [handleResponseGo, sendThen_spinner, sendThen_interactive,
              ChatContext.setConv, ChatContext.send_tool_use_telemetry, ChatContext.pushOut,
              ConvState.push_assistant_message, ConvState.add_tool_results]
      | other m => simp [handleResponseGo, hsrc]
    | ok ev =>
      cases ev with
      | toolUseStart name =>
        cases hend : st.ended <;> by_cases hi : c.interactive = true <;>
          cases hmid : c.conversation_state.message_id <;>
          simp_all [handleResponseGo, ChatContext.pushOut, ChatContext.setConv, ih]
      | assistantText text =>
        cases hend : st.ended <;> by_cases hi : c.interactive = true <;>
          cases htn : st.tool_name_being_recvd <;>
          by_cases hsp : c.spinner.isSome = true <;>
          by_cases hbuf : (st.buf ++ text) = "" <;>
          cases hmid : c.conversation_state.message_id <;>
          simp_all [handleResponseGo, ChatContext.pushOut, ChatContext.setConv,
            str_snoc_newline_ne, ih]
      | toolUse tu =>
        cases hend : st.ended <;> by_cases hi : c.interactive = true <;>
          by_cases hsp : c.spinner.isSome = true <;>
          by_cases hbuf : st.buf = "" <;>
          cases hmid : c.conversation_state.message_id <;>
          simp_all [handleResponseGo, ChatContext.pushOut, ChatContext.setConv, ih]
      | endStream message =>
        by_cases hi : c.interactive = true <;>
          cases htn : st.tool_name_being_recvd <;>
          by_cases hsp : c.spinner.isSome = true <;>
          cases hm2 : message.message_id <;>
          simp_all [handleResponseGo, ChatContext.pushOut, ChatContext.setConv,
            ConvState.push_assistant_message, str_snoc_newline_ne, ih]

theorem handle_loop_error_interactive (c : ChatContext) (e : ChatError) :
    (c.handle_loop_error e).1.interactive = c.interactive := by
  by_cases h : c.interactive = true ∧ c.spinner.isSome = true
  all_goals
    cases e with
    | client err =>
        cases err <;>
          simp [ChatContext.handle_loop_error, ChatContext.setConv, ChatContext.pushOut, h]
    | interrupted inter =>
        cases inter <;>
          simp [ChatContext.handle_loop_error, ChatContext.setConv, ChatContext.pushOut, h]
    | _ => simp [ChatContext.handle_loop_error, ChatContext.setConv, ChatContext.pushOut, h]

theorem handle_loop_error_inv (c1 : ChatContext) (e : ChatError) (h1 : spinnerInv c1) :
    spinnerInv (c1.handle_loop_error e).1 := by
  intro hfi
  rw [handle_loop_error_interactive] at hfi
  rw [handle_loop_error_spinner, if_neg (by simp [hfi])]
  exact h1 hfi

theorem inv_transfer (c c1 : ChatContext) (hint : c1.interactive = c.interactive)
    (hsp : c.interactive = false → c1.spinner = c.spinner) (hinv : spinnerInv c) :
    spinnerInv c1 := by
  intro hfi
  rw [hint] at hfi
  rw [hsp hfi]
  exact hinv hfi

/-- The spinner invariant (a non-interactive session never shows a spinner) is
preserved by every iteration of the driver loop, interrupted or not; together
with the initial state (no spinner at session start) this justifies the
hypothesis of the claim about error handling. -/
theorem stepChat_preserves_spinnerInv (tryFrom : ToolUse → Except ToolResult Tool)
    (c : ChatContext) (s : ChatState) (interrupted : Bool) (c' : ChatContext)
    (s' : ChatState) (hinv : spinnerInv c)
    (h : c.stepChat tryFrom s interrupted = StepResult.next c' s') : spinnerInv c' := by
  cases s with
  | promptUser tu skip =>
    by_cases hi : c.interactive = false
    · simp [ChatContext.stepChat, hi] at h
    · simp only [ChatContext.stepChat, if_neg hi] at h
      rcases hop : c.prompt_user tu skip with ⟨c1, r1⟩
      rw [hop] at h
      have hpp := prompt_user_preserves c tu skip
      rw [hop] at hpp
      have hinv1 : spinnerInv c1 := inv_transfer c c1 hpp.2 (fun _ => hpp.1) hinv
      cases r1 with
      | ok s1 =>
        simp at h
        rw [← h.1]
        exact hinv1
      | error e =>
        rcases hhl : c1.handle_loop_error e with ⟨c2, s2⟩
        simp [hhl] at h
        rw [← h.1]
        have := handle_loop_error_inv c1 e hinv1
        rw [hhl] at this
        exact this
  | handleInput input tu =>
    simp only [ChatContext.stepChat] at h
    rcases hop : c.handle_input input tu with ⟨c1, r1⟩
    rw [hop] at h
    have hpp := handle_input_preserves c input tu
    rw [hop] at hpp
    have hinv1 : spinnerInv c1 := inv_transfer c c1 hpp.1 hpp.2 hinv
    cases r1 with
    | ok s1 =>
      simp at h
      rw [← h.1]
      exact hinv1
    | error e =>
      rcases hhl : c1.handle_loop_error e with ⟨c2, s2⟩
      simp [hhl] at h
      rw [← h.1]
      have := handle_loop_error_inv c1 e hinv1
      rw [hhl] at this
      exact this
  | executeTools ts =>
    cases interrupted with
    | true =>
      simp only [ChatContext.stepChat, if_true] at h
      rcases hhl : c.handle_loop_error (ChatError.interrupted (some ts)) with ⟨c2, s2⟩
      simp [hhl] at h
      rw [← h.1]
      have := handle_loop_error_inv c (ChatError.interrupted (some ts)) hinv
      rw [hhl] at this
      exact this
    | false =>
      simp only [ChatContext.stepChat, if_false] at h
      rcases hop : c.tool_use_execute ts with ⟨c1, r1⟩
      rw [hop] at h
      have hpp := tool_use_execute_preserves c ts
      rw [hop] at hpp
      have hinv1 : spinnerInv c1 := inv_transfer c c1 hpp.2 (fun _ => hpp.1) hinv
      cases r1 with
      | ok s1 =>
        simp at h
        rw [← h.1]
        exact hinv1
      | error e =>
        rcases hhl : c1.handle_loop_error e with ⟨c2, s2⟩
        simp [hhl] at h
        rw [← h.1]
        have := handle_loop_error_inv c1 e hinv1
        rw [hhl] at this
        exact this
  | validateTools ts =>
    cases interrupted with
    | true =>
      simp only [ChatContext.stepChat, if_true] at h
      rcases hhl : c.handle_loop_error (ChatError.interrupted none) with ⟨c2, s2⟩
      simp [hhl] at h
      rw [← h.1]
      have := handle_loop_error_inv c (ChatError.interrupted none) hinv
      rw [hhl] at this
      exact this
    | false =>
      simp only [ChatContext.stepChat, if_false] at h
      rcases hop : c.validate_tools tryFrom ts with ⟨c1, r1⟩
      rw [hop] at h
      have hpp := validate_tools_preserves tryFrom c ts
      rw [hop] at hpp
      have hinv1 : spinnerInv c1 := inv_transfer c c1 hpp.2 (fun _ => hpp.1) hinv
      cases r1 with
      | ok s1 =>
        simp at h
        rw [← h.1]
        exact hinv1
      | error e =>
        rcases hhl : c1.handle_loop_error e with ⟨c2, s2⟩
        simp [hhl] at h
        rw [← h.1]
        have := handle_loop_error_inv c1 e hinv1
        rw [hhl] at this
        exact this
  | handleResponseStream resp =>
    cases interrupted with
    | true =>
      simp only [ChatContext.stepChat, if_true] at h
      rcases hhl : c.handle_loop_error (ChatError.interrupted none) with ⟨c2, s2⟩
      simp [hhl] at h
      rw [← h.1]
      have := handle_loop_error_inv c (ChatError.interrupted none) hinv
      rw [hhl] at this
      exact this
    | false =>
      simp only [ChatContext.stepChat, if_false] at h
      rcases hop : c.handle_response resp with ⟨c1, r1⟩
      rw [hop] at h
      have hpp := handleResponseGo_preserves resp c
        { buf := "", ended := false, tool_uses := [], tool_name_being_recvd := none }
      have hop2 : handleResponseGo c
          { buf := "", ended := false, tool_uses := [], tool_name_being_recvd := none } resp =
          (c1, r1) := hop
      rw [hop2] at hpp
      have hinv1 : spinnerInv c1 := inv_transfer c c1 hpp.1 hpp.2 hinv
      cases r1 with
      | ok s1 =>
        simp at h
        rw [← h.1]
        exact hinv1
      | error e =>
        rcases hhl : c1.handle_loop_error e with ⟨c2, s2⟩
        simp [hhl] at h
        rw [← h.1]
        have := handle_loop_error_inv c1 e hinv1
        rw [hhl] at this
        exact this
  | exit => simp [ChatContext.stepChat] at h
